import Mathlib

/-!
# hostcompute_nspawn: lifecycle orchestration

A shallow embedding of `src/hostcompute_nspawn.cpp`.

* Every call to the layer driver and to the container runtime is an `Event.call`
  appended to a trace; its return code is read from a `World`, which stands for the
  driver, the runtime, the file system and the helper library.
* `sl::support::defer` scope guards are the combinator `defer`: the guarded rest of the
  scope runs first, the guard runs when that scope is left normally or by an exception.
* An `await` that is never answered is the outcome `Res.blocked`; an exception escaping a
  `STATICLIB_NOEXCEPT` function is the outcome `Res.aborted`.
* Console output (`std::cout`, `std::cerr`) is not part of the model, nor are the values
  that are only handed on to the driver (`create_driver_info`,
  `create_ascendant_descriptors`).
* The definitions come first: the embedding of the source, the phase table, a closed form
  of a run; then the lemmas; then the claims `C1` to `C10`.
-/

namespace nspawn

/-! ## Data model -/

/-- Win32 handles are kept as plain numbers. -/
abbrev HANDLE := Nat

/-- The `HcsErrors::operation_pending` enumerator of the source. -/
def HcsErrors.operation_pending : Nat := 0xC0370103

/-- The two constructor arguments of `container_layer` (its header is not part of the
sources at hand); `get_name()` is the field `name`. -/
structure container_layer where
  base_path : String
  name : String
deriving DecidableEq, Repr

/-- The one field of `nspawn_config` that `hostcompute_nspawn.cpp` reads. -/
structure nspawn_config where
  parent_layer_directory : String
deriving DecidableEq, Repr

/-- JSON values as loaded by `sl::json::load`. -/
inductive json where
  | null
  | boolean (b : Bool)
  | number (n : Int)
  | string (s : String)
  | array (xs : List json)
  | object (fields : List (String × json))

/-- Modelled from the spec: `notification_type.hpp` is missing. These are the four
notification kinds that the source names, plus every other value that the cast
`static_cast<notification_type>(notificationType)` can produce. -/
inductive notification_type where
  | system_exit
  | system_create_complete
  | system_start_complete
  | process_exit
  | other (raw : Nat)
deriving DecidableEq, Repr

/-- The arguments the runtime passes to `container_callback`. -/
structure Notification where
  notificationType : Nat
  notificationStatus : Int
  notificationData : Option String
deriving DecidableEq, Repr

/-- Exceptions. `nspawn_exception` is what the source throws; `library` is an exception of
the helper library (file access, JSON access), of which only the context string is kept;
`UsageError` and `CancellationError` are the two failures of the latch. -/
inductive Exn where
  | nspawn_exception (what : String)
  | library (what : String)
  | UsageError
  | CancellationError
deriving DecidableEq, Repr

/-- The text of `e.what()`. -/
def Exn.what : Exn → String
  | .nspawn_exception m => m
  | .library m => m
  | .UsageError => "Concurrent access to callback latch"
  | .CancellationError => "Callback latch cancelled"

/-- The external entry points called by the source. -/
inductive Api where
  | CreateSandboxLayer
  | ActivateLayer
  | PrepareLayer
  | GetLayerMountPath
  | HcsCreateComputeSystem
  | HcsRegisterComputeSystemCallback
  | HcsStartComputeSystem
  | HcsEnumerateComputeSystems
  | HcsCreateProcess
  | HcsRegisterProcessCallback
  | HcsTerminateComputeSystem
  | UnprepareLayer
  | DeactivateLayer
  | DestroyLayer
deriving DecidableEq, Repr

/-- What an external call is applied to: a layer name, a handle, or nothing. -/
inductive Target where
  | layer (name : String)
  | handle (h : HANDLE)
  | nothing
deriving DecidableEq, Repr

/-- Observable actions of the orchestrator thread: external calls and the operations it
performs on `cs_latch`. -/
inductive Event where
  | call (api : Api) (target : Target)
  | lock
  | await (kind : notification_type)
  | cancel
deriving DecidableEq, Repr

/-- Everything outside `hostcompute_nspawn.cpp` that a run depends on. -/
structure World where
  /-- Helper `sl::utils::errcode_to_string`. -/
  errcode_to_string : Nat → String
  /-- Helper `sl::utils::strip_filename`. -/
  strip_filename : String → String
  /-- Helper `sl::utils::strip_parent_dir`. -/
  strip_parent_dir : String → String
  /-- Reading and parsing a JSON file: `sl::tinydir::file_source` and `sl::json::load`; a
  failure is an exception of the helper library, given by its text. -/
  load_json : String → Except String json
  /-- Parsing the configuration document: `sl::io::array_source`, `sl::json::load` and the
  `nspawn_config` constructor; a failure is an exception given by its text. -/
  load_config : String → Int → Except String nspawn_config
  /-- Result of `utils::current_datetime()`. -/
  current_datetime : String
  /-- Result of `rng.generate(n)`. -/
  rng_generate : Nat → String
  /-- Result of `container_config(...).to_json().dumps()`. -/
  container_config_json :
    nspawn_config → String → String → container_layer → List container_layer → String → String
  /-- Result of `process_config(config).to_json().dumps()`. -/
  process_config_json : nspawn_config → String
  /-- Return code of each external call. -/
  rc : Api → Nat
  /-- Path written by `GetLayerMountPath`. -/
  mount_path : String
  /-- Handle written by `HcsCreateComputeSystem`. -/
  computeSystem : HANDLE
  /-- Handle written by `HcsCreateProcess`. -/
  process : HANDLE
  /-- The cast `static_cast<notification_type>(notificationType)`. -/
  to_notification_type : Nat → notification_type
  /-- The notifications that the runtime delivers to `container_callback` while the
  orchestrator waits after the given call. -/
  notifications : Api → List Notification

/-! ## The latch -/

/-- Modelled from the spec: `callback_latch.hpp` is missing. The states are those of the
data model, `Idle → Armed(expected-kind) → {Unlocked(kind) | Cancelled}`; the expected kind
is known once `await` has been entered. -/
inductive callback_latch where
  | Idle
  | Armed (expected : Option notification_type)
  | Unlocked (kind : notification_type)
  | Cancelled
deriving DecidableEq, Repr

/-- Modelled from the spec: `lock()` arms the latch and fails with a usage error if it is
already armed. -/
def callback_latch.lock : callback_latch → Except Exn callback_latch
  | .Armed _ => .error .UsageError
  | _ => .ok (.Armed none)

/-- Modelled from the spec: `unlock(kind)` unlocks an armed latch whose current wait
expects `kind`; otherwise the event is dropped. -/
def callback_latch.unlock (kind : notification_type) : callback_latch → callback_latch
  | .Armed (some k) => if kind = k then .Unlocked kind else .Armed (some k)
  | la => la

/-- Modelled from the spec: `cancel()` moves an armed latch to `Cancelled`. -/
def callback_latch.cancel : callback_latch → callback_latch
  | .Armed _ => .Cancelled
  | la => la

/-- Modelled from the spec: entering `await(expected_kind)` records the expected kind of
the current armed period. -/
def callback_latch.expect (kind : notification_type) : callback_latch → callback_latch
  | .Armed _ => .Armed (some kind)
  | la => la

/-- Modelled from the spec: `await(expected_kind)` returns once the latch is unlocked with
that kind, fails once it is cancelled, and keeps blocking (`none`) otherwise. -/
def callback_latch.wake (kind : notification_type) : callback_latch → Option (Except Exn Unit)
  | .Unlocked k => if k = kind then some (.ok ()) else none
  | .Cancelled => some (.error .CancellationError)
  | _ => none

/-- The function `container_callback` of the source: only the notification type reaches
the latch. -/
def container_callback (w : World) (n : Notification) (la : callback_latch) : callback_latch :=
  la.unlock (w.to_notification_type n.notificationType)

/-! ## Control flow -/

/-- How a computation ends: normally, by an exception, blocked in a wait for ever, or by
`std::terminate`. -/
inductive Res (α : Type) where
  | ok (a : α)
  | thrown (e : Exn)
  | blocked
  | aborted
deriving DecidableEq, Repr

/-- The trace so far and the state of `cs_latch`. -/
structure St where
  trace : List Event
  cs_latch : callback_latch
deriving DecidableEq, Repr

/-- The state before anything has happened. -/
def St.init : St := ⟨[], .Idle⟩

/-- Computations over the trace and the latch. -/
def M (α : Type) : Type := St → Res α × St

/-- Normal return. -/
def M.pure {α : Type} (a : α) : M α := fun s => (.ok a, s)

/-- Sequencing: an exception, a blocked wait or an abort ends the computation. -/
def M.bind {α β : Type} (m : M α) (f : α → M β) : M β := fun s =>
  match m s with
  | (.ok a, s1) => f a s1
  | (.thrown e, s1) => (.thrown e, s1)
  | (.blocked, s1) => (.blocked, s1)
  | (.aborted, s1) => (.aborted, s1)

instance : Monad M where
  pure := M.pure
  bind := M.bind

/-- The statement `throw e`. -/
def raise {α : Type} (e : Exn) : M α := fun s => (.thrown e, s)

/-- A library call that returns or throws, without touching the trace. -/
def lift {α : Type} : Except Exn α → M α
  | .ok a => M.pure a
  | .error e => raise e

/-- A call into the helper library that returns or throws an exception of the library. -/
def lift_library {α : Type} : Except String α → M α
  | .ok a => M.pure a
  | .error m => raise (.library m)

/-- A function marked `STATICLIB_NOEXCEPT`: an exception that escapes it ends the program. -/
def noexcept {α : Type} (m : M α) : M α := fun s =>
  match m s with
  | (.thrown _, s1) => (.aborted, s1)
  | r => r

/-- The scope guard `sl::support::defer`: `rest` is the remainder of the enclosing scope;
the guard runs when that scope is left, normally or by an exception, and the way the scope
was left is kept. -/
def defer {α : Type} (guard : M Unit) (rest : M α) : M α := fun s =>
  match rest s with
  | (.ok a, s1) =>
    match noexcept guard s1 with
    | (.ok _, s2) => (.ok a, s2)
    | (.thrown e, s2) => (.thrown e, s2)
    | (.blocked, s2) => (.blocked, s2)
    | (.aborted, s2) => (.aborted, s2)
  | (.thrown e, s1) =>
    match noexcept guard s1 with
    | (.ok _, s2) => (.thrown e, s2)
    | (.thrown e2, s2) => (.thrown e2, s2)
    | (.blocked, s2) => (.blocked, s2)
    | (.aborted, s2) => (.aborted, s2)
  | (.blocked, s1) => (.blocked, s1)
  | (.aborted, s1) => (.aborted, s1)

/-- An external call: it is recorded and its return code is read from the world. -/
def call (w : World) (api : Api) (target : Target) : M Nat := fun s =>
  (.ok (w.rc api), { s with trace := s.trace ++ [.call api target] })

/-- The declaration `callback_latch cs_latch;`. -/
def new_latch : M Unit := fun s => (.ok (), { s with cs_latch := .Idle })

/-- The call `latch.lock()`. -/
def latch_lock : M Unit := fun s =>
  match s.cs_latch.lock with
  | .ok la => (.ok (), { trace := s.trace ++ [.lock], cs_latch := la })
  | .error e => (.thrown e, { s with trace := s.trace ++ [.lock] })

/-- The call `latch.cancel()`. -/
def latch_cancel : M Unit := fun s =>
  (.ok (), { trace := s.trace ++ [.cancel], cs_latch := s.cs_latch.cancel })

/-- The latch after the runtime has delivered `ns` to `container_callback`, in order. -/
def deliver (w : World) (ns : List Notification) (la : callback_latch) : callback_latch :=
  ns.foldl (fun l n => container_callback w n l) la

/-- The call `latch.await(kind)` made after the external call `after`: the notifications of
that wait are delivered, and the wait returns, fails or blocks as the latch says. -/
def latch_await (w : World) (after : Api) (kind : notification_type) : M Unit := fun s =>
  let la := deliver w (w.notifications after) (s.cs_latch.expect kind)
  let s1 : St := { trace := s.trace ++ [.await kind], cs_latch := la }
  match la.wake kind with
  | some (.ok _) => (.ok (), s1)
  | some (.error e) => (.thrown e, s1)
  | none => (.blocked, s1)

/-- The trace decoration `TRACEMSG` of the helper library: the message followed by the
place it was raised at. -/
def TRACEMSG (origin : String) (message : String) : String :=
  message ++ "\n    at " ++ origin

/-! ## Resolving the ascendant chain -/

/-- The accessor `as_array_or_throw(context)`. -/
def json.as_array_or_throw (context : String) : json → Except Exn (List json)
  | .array xs => .ok xs
  | _ => .error (.library context)

/-- The accessor `as_string_or_throw(context)`. -/
def json.as_string_or_throw (context : String) : json → Except Exn String
  | .string s => .ok s
  | _ => .error (.library context)

/-- The `for` loop of `collect_acsendant_layers`: each element is read as a path string,
split, and appended to `res`. -/
def collect_loop (w : World) (json_file : String) :
    List json → List container_layer → Except Exn (List container_layer)
  | [], res => .ok res
  | el :: rest, res =>
    match el.as_string_or_throw json_file with
    | .ok path =>
      let dir := w.strip_filename path
      let file := w.strip_parent_dir path
      collect_loop w json_file rest (res ++ [⟨dir, file⟩])
    | .error e => .error e

/-- The function `collect_acsendant_layers` of the source. -/
def collect_acsendant_layers (w : World) (base_path parent_layer_name : String) :
    Except Exn (List container_layer) :=
  let res : List container_layer := [⟨base_path, parent_layer_name⟩]
  let json_file := base_path ++ "\\" ++ parent_layer_name ++ "\\layerchain.json"
  match w.load_json json_file with
  | .error m => .error (.library m)
  | .ok js =>
    match js.as_array_or_throw json_file with
    | .error e => .error e
    | .ok arr => collect_loop w json_file arr res

/-! ## Forward steps -/

/-- The function `hcs_create_layer` of the source. -/
def hcs_create_layer (w : World) (layer : container_layer) (parent_layer_name : String) :
    M Unit := do
  let err ← call w .CreateSandboxLayer (.layer layer.name)
  if 0 ≠ err then
    raise (.nspawn_exception (TRACEMSG "hcs_create_layer"
      ("'CreateSandboxLayer' failed," ++
        " layer_name: [" ++ layer.name ++ "]," ++
        " parent_layer_name: [" ++ parent_layer_name ++ "]," ++
        " error: [" ++ w.errcode_to_string err ++ "]")))
  else pure ()

/-- The function `hcs_activate_layer` of the source. -/
def hcs_activate_layer (w : World) (layer : container_layer) : M Unit := do
  let err ← call w .ActivateLayer (.layer layer.name)
  if 0 ≠ err then
    raise (.nspawn_exception (TRACEMSG "hcs_activate_layer"
      ("'ActivateLayer' failed," ++
        " layer_name: [" ++ layer.name ++ "]," ++
        " error: [" ++ w.errcode_to_string err ++ "]")))
  else pure ()

/-- The function `hcs_prepare_layer` of the source. -/
def hcs_prepare_layer (w : World) (layer : container_layer) : M Unit := do
  let err ← call w .PrepareLayer (.layer layer.name)
  if 0 ≠ err then
    raise (.nspawn_exception (TRACEMSG "hcs_prepare_layer"
      ("'PrepareLayer' failed," ++
        " layer_name: [" ++ layer.name ++ "]," ++
        " error: [" ++ w.errcode_to_string err ++ "]")))
  else pure ()

/-- The function `hcs_get_layer_mount_path` of the source. -/
def hcs_get_layer_mount_path (w : World) (layer : container_layer) : M String := do
  let err ← call w .GetLayerMountPath (.layer layer.name)
  if 0 ≠ err then
    raise (.nspawn_exception (TRACEMSG "hcs_get_layer_mount_path"
      ("'GetLayerMountPath' failed," ++
        " layer_name: [" ++ layer.name ++ "]," ++
        " error: [" ++ w.errcode_to_string err ++ "]")))
  else pure w.mount_path

/-- The function `hcs_create_compute_system` of the source; `conf` is the dumped
container configuration. -/
def hcs_create_compute_system (w : World) (conf : String) (layer : container_layer) :
    M HANDLE := do
  let res ← call w .HcsCreateComputeSystem (.layer layer.name)
  if HcsErrors.operation_pending ≠ res then
    raise (.nspawn_exception (TRACEMSG "hcs_create_compute_system"
      ("'HcsCreateComputeSystem' failed," ++
        " config: [" ++ conf ++ "]," ++
        " error: [" ++ w.errcode_to_string res ++ "]")))
  else pure w.computeSystem

/-- The function `hcs_register_compute_system_callback` of the source; the callback handle
it returns is not used by its caller and is left out. -/
def hcs_register_compute_system_callback (w : World) (compute_system : HANDLE)
    (layer : container_layer) : M Unit := do
  latch_lock
  let res ← call w .HcsRegisterComputeSystemCallback (.handle compute_system)
  if 0 ≠ res then
    latch_cancel
    raise (.nspawn_exception (TRACEMSG "hcs_register_compute_system_callback"
      ("'HcsRegisterComputeSystemCallback' failed," ++
        " name: [" ++ layer.name ++ "]," ++
        " error: [" ++ w.errcode_to_string res ++ "]")))
  else
    latch_await w .HcsRegisterComputeSystemCallback .system_create_complete

/-- The function `hcs_start_compute_system` of the source. -/
def hcs_start_compute_system (w : World) (compute_system : HANDLE) : M Unit := do
  latch_lock
  let res ← call w .HcsStartComputeSystem (.handle compute_system)
  if HcsErrors.operation_pending ≠ res then
    latch_cancel
    raise (.nspawn_exception (TRACEMSG "hcs_start_compute_system"
      ("'HcsStartComputeSystem' failed," ++
        " error: [" ++ w.errcode_to_string res ++ "]")))
  else
    latch_await w .HcsStartComputeSystem .system_start_complete

/-- The function `hcs_enumerate_compute_systems` of the source. -/
def hcs_enumerate_compute_systems (w : World) : M Unit := do
  let res ← call w .HcsEnumerateComputeSystems .nothing
  if 0 ≠ res then
    raise (.nspawn_exception (TRACEMSG "hcs_enumerate_compute_systems"
      ("'HcsEnumerateComputeSystems' failed," ++
        " error: [" ++ w.errcode_to_string res ++ "]")))
  else pure ()

/-- The function `hcs_create_process` of the source. -/
def hcs_create_process (w : World) (compute_system : HANDLE) (config : nspawn_config) :
    M HANDLE := do
  let pcfg_json := w.process_config_json config
  let res ← call w .HcsCreateProcess (.handle compute_system)
  if 0 ≠ res then
    raise (.nspawn_exception (TRACEMSG "hcs_create_process"
      ("'HcsCreateProcess' failed," ++
        " config: [" ++ pcfg_json ++ "]," ++
        " error: [" ++ w.errcode_to_string res ++ "]")))
  else pure w.process

/-- The function `hcs_register_process_callback` of the source; the callback handle it
returns is not used by its caller and is left out. -/
def hcs_register_process_callback (w : World) (process : HANDLE) (layer : container_layer) :
    M Unit := do
  latch_lock
  let res ← call w .HcsRegisterProcessCallback (.handle process)
  if 0 ≠ res then
    latch_cancel
    raise (.nspawn_exception (TRACEMSG "hcs_register_process_callback"
      ("'HcsRegisterProcessCallback' failed," ++
        " name: [" ++ layer.name ++ "]," ++
        " error: [" ++ w.errcode_to_string res ++ "]")))
  else
    latch_await w .HcsRegisterProcessCallback .process_exit

/-! ## Release steps -/

/-- The function `hcs_terminate_compute_system` of the source. -/
def hcs_terminate_compute_system (w : World) (compute_system : HANDLE) : M Unit := do
  latch_lock
  let res ← call w .HcsTerminateComputeSystem (.handle compute_system)
  if HcsErrors.operation_pending = res then
    latch_await w .HcsTerminateComputeSystem .system_exit
  else
    latch_cancel

/-- The function `hcs_unprepare_layer` of the source: the return code only selects what is
printed. -/
def hcs_unprepare_layer (w : World) (layer : container_layer) : M Unit := do
  let res ← call w .UnprepareLayer (.layer layer.name)
  if 0 = res then pure () else pure ()

/-- The function `hcs_deactivate_layer` of the source: the return code only selects what is
printed. -/
def hcs_deactivate_layer (w : World) (layer : container_layer) : M Unit := do
  let res ← call w .DeactivateLayer (.layer layer.name)
  if 0 = res then pure () else pure ()

/-- The function `hcs_destroy_layer` of the source: the return code only selects what is
printed. -/
def hcs_destroy_layer (w : World) (layer : container_layer) : M Unit := do
  let res ← call w .DestroyLayer (.layer layer.name)
  if 0 = res then pure () else pure ()

/-! ## The orchestrator and the entry point -/

/-- The function `spawn_and_wait` of the source. -/
def spawn_and_wait (w : World) (config : nspawn_config) : M Unit := do
  let base_path := w.strip_filename config.parent_layer_directory
  let parent_layer_name := w.strip_parent_dir config.parent_layer_directory
  let acsendant_layers ← lift (collect_acsendant_layers w base_path parent_layer_name)
  let layer : container_layer :=
    ⟨base_path, "nspawn_" ++ w.current_datetime ++ "_" ++ w.rng_generate 26⟩
  hcs_create_layer w layer parent_layer_name
  defer (hcs_destroy_layer w layer) do
    hcs_activate_layer w layer
    defer (hcs_deactivate_layer w layer) do
      hcs_prepare_layer w layer
      defer (hcs_unprepare_layer w layer) do
        let volume_path ← hcs_get_layer_mount_path w layer
        let conf := w.container_config_json config base_path volume_path layer
          acsendant_layers (w.rng_generate 8)
        let compute_system ← hcs_create_compute_system w conf layer
        new_latch
        hcs_register_compute_system_callback w compute_system layer
        hcs_start_compute_system w compute_system
        defer (hcs_terminate_compute_system w compute_system) do
          hcs_enumerate_compute_systems w
          let process ← hcs_create_process w compute_system config
          hcs_register_process_callback w process layer

/-- The check `sl::support::is_uint32_positive`. -/
def is_uint32_positive (n : Int) : Bool := decide (0 < n) && decide (n ≤ 4294967295)

/-- The `try` block of the entry point with its `catch (const std::exception& e)`: a
normal end gives the null pointer, an exception gives its decorated text. -/
def catch_all (r : Res Unit × St) : Res (Option String) × St :=
  match r with
  | (.ok _, s) => (.ok none, s)
  | (.thrown e, s) =>
    (.ok (some (TRACEMSG "hostcompute_nspawn" (e.what ++ "\nException raised"))), s)
  | (.blocked, s) => (.blocked, s)
  | (.aborted, s) => (.aborted, s)

/-- The entry point `hostcompute_nspawn`: `none` is the null pointer, `some m` a message.
The outcome is paired with the final trace and latch. -/
def hostcompute_nspawn (w : World) (config_json : Option String) (config_json_len : Int) :
    Res (Option String) × St :=
  match config_json with
  | none =>
    (.ok (some (TRACEMSG "hostcompute_nspawn" "Null 'config_json' parameter specified")),
      St.init)
  | some text =>
    if !is_uint32_positive config_json_len then
      (.ok (some (TRACEMSG "hostcompute_nspawn"
        ("Invalid 'config_json_len' parameter specified: [" ++ toString config_json_len ++ "]"))),
        St.init)
    else
      catch_all
        ((lift_library (w.load_config text config_json_len) >>= spawn_and_wait w) St.init)

/-! ## Reading a trace -/

/-- The external calls of a trace, in order. -/
def calls : List Event → List Api
  | [] => []
  | .call api _ :: es => api :: calls es
  | _ :: es => calls es

/-- The latch operations of a trace, in order. -/
def latch_ops : List Event → List Event
  | [] => []
  | .call _ _ :: es => latch_ops es
  | e :: es => e :: latch_ops es

/-- Whether an entry point is one of the four release calls. -/
def Api.is_release : Api → Bool
  | .HcsTerminateComputeSystem | .UnprepareLayer | .DeactivateLayer | .DestroyLayer => true
  | _ => false

/-- The release calls of a trace, in order. -/
def rollback_calls (es : List Event) : List Api := (calls es).filter Api.is_release

/-- The other external calls of a trace, in order. -/
def forward_calls (es : List Event) : List Api := (calls es).filter (fun a => !a.is_release)

/-! ## Sample worlds -/

/-- A world in which every call succeeds and every awaited notification arrives: the
manifest lists two ancestors, notification types are the runtime's numbers. -/
def happy : World where
  errcode_to_string := fun n => if n = 5 then "0x5" else "0x?"
  strip_filename := fun _ => "C:\\layers\\"
  strip_parent_dir := fun p =>
    if p = "C:\\layers\\parent" then "parent"
    else if p = "C:\\layers\\d1" then "d1"
    else if p = "C:\\layers\\d2" then "d2"
    else p
  load_json := fun _ => .ok (.array [.string "C:\\layers\\d1", .string "C:\\layers\\d2"])
  load_config := fun _ _ => .ok ⟨"C:\\layers\\parent"⟩
  current_datetime := "20160101"
  rng_generate := fun n => String.mk (List.replicate n 'a')
  container_config_json := fun _ _ _ _ _ _ => "cc"
  process_config_json := fun _ => "pc"
  rc := fun a =>
    match a with
    | .HcsCreateComputeSystem | .HcsStartComputeSystem | .HcsTerminateComputeSystem =>
      HcsErrors.operation_pending
    | _ => 0
  mount_path := "V:"
  computeSystem := 7
  process := 9
  to_notification_type := fun n =>
    if n = 1 then .system_exit else if n = 2 then .system_create_complete
    else if n = 3 then .system_start_complete else if n = 65536 then .process_exit
    else .other n
  notifications := fun a =>
    match a with
    | .HcsRegisterComputeSystemCallback => [⟨2, 0, none⟩]
    | .HcsStartComputeSystem => [⟨3, 0, none⟩]
    | .HcsRegisterProcessCallback => [⟨65536, 0, none⟩]
    | .HcsTerminateComputeSystem => [⟨1, 0, none⟩]
    | _ => []

/-- The world `w` with the return code of `api` replaced by `code`. -/
def World.with_rc (w : World) (api : Api) (code : Nat) : World :=
  { w with rc := fun a => if a = api then code else w.rc a }

/-! ## Conditions on the world -/

/-- The kinds of the notifications delivered during the wait that follows `after`. -/
def kinds (w : World) (after : Api) : List notification_type :=
  (w.notifications after).map (fun n => w.to_notification_type n.notificationType)

/-- Whether a notification of kind `kind` is delivered during the wait that follows
`after`. -/
def notified (w : World) (after : Api) (kind : notification_type) : Bool :=
  decide (kind ∈ kinds w after)

/-- Whether the release of the compute system comes back: when `HcsTerminateComputeSystem`
answers "pending", the `system_exit` notification is delivered. -/
def terminate_completes (w : World) : Bool :=
  decide (w.rc .HcsTerminateComputeSystem = HcsErrors.operation_pending →
    notified w .HcsTerminateComputeSystem .system_exit = true)

/-! ## A closed form of a run -/

/-- The layer that a run creates. -/
def run_layer (w : World) (config : nspawn_config) : container_layer :=
  ⟨w.strip_filename config.parent_layer_directory,
    "nspawn_" ++ w.current_datetime ++ "_" ++ w.rng_generate 26⟩

/-- The exception raised by the forward step `k` of the phase table when it fails. -/
def step_exn (w : World) (config : nspawn_config) (chain : List container_layer) : Nat → Exn
  | 2 => .nspawn_exception (TRACEMSG "hcs_create_layer"
      ("'CreateSandboxLayer' failed," ++
        " layer_name: [" ++ (run_layer w config).name ++ "]," ++
        " parent_layer_name: [" ++ w.strip_parent_dir config.parent_layer_directory ++ "]," ++
        " error: [" ++ w.errcode_to_string (w.rc .CreateSandboxLayer) ++ "]"))
  | 3 => .nspawn_exception (TRACEMSG "hcs_activate_layer"
      ("'ActivateLayer' failed," ++
        " layer_name: [" ++ (run_layer w config).name ++ "]," ++
        " error: [" ++ w.errcode_to_string (w.rc .ActivateLayer) ++ "]"))
  | 4 => .nspawn_exception (TRACEMSG "hcs_prepare_layer"
      ("'PrepareLayer' failed," ++
        " layer_name: [" ++ (run_layer w config).name ++ "]," ++
        " error: [" ++ w.errcode_to_string (w.rc .PrepareLayer) ++ "]"))
  | 5 => .nspawn_exception (TRACEMSG "hcs_get_layer_mount_path"
      ("'GetLayerMountPath' failed," ++
        " layer_name: [" ++ (run_layer w config).name ++ "]," ++
        " error: [" ++ w.errcode_to_string (w.rc .GetLayerMountPath) ++ "]"))
  | 7 => .nspawn_exception (TRACEMSG "hcs_create_compute_system"
      ("'HcsCreateComputeSystem' failed," ++
        " config: [" ++ w.container_config_json config (run_layer w config).base_path
          w.mount_path (run_layer w config) chain (w.rng_generate 8) ++ "]," ++
        " error: [" ++ w.errcode_to_string (w.rc .HcsCreateComputeSystem) ++ "]"))
  | 8 => .nspawn_exception (TRACEMSG "hcs_register_compute_system_callback"
      ("'HcsRegisterComputeSystemCallback' failed," ++
        " name: [" ++ (run_layer w config).name ++ "]," ++
        " error: [" ++ w.errcode_to_string (w.rc .HcsRegisterComputeSystemCallback) ++ "]"))
  | 9 => .nspawn_exception (TRACEMSG "hcs_start_compute_system"
      ("'HcsStartComputeSystem' failed," ++
        " error: [" ++ w.errcode_to_string (w.rc .HcsStartComputeSystem) ++ "]"))
  | 10 => .nspawn_exception (TRACEMSG "hcs_enumerate_compute_systems"
      ("'HcsEnumerateComputeSystems' failed," ++
        " error: [" ++ w.errcode_to_string (w.rc .HcsEnumerateComputeSystems) ++ "]"))
  | 11 => .nspawn_exception (TRACEMSG "hcs_create_process"
      ("'HcsCreateProcess' failed," ++
        " config: [" ++ w.process_config_json config ++ "]," ++
        " error: [" ++ w.errcode_to_string (w.rc .HcsCreateProcess) ++ "]"))
  | 12 => .nspawn_exception (TRACEMSG "hcs_register_process_callback"
      ("'HcsRegisterProcessCallback' failed," ++
        " name: [" ++ (run_layer w config).name ++ "]," ++
        " error: [" ++ w.errcode_to_string (w.rc .HcsRegisterProcessCallback) ++ "]"))
  | _ => .UsageError

/-- The three layer guards, in the order they run. -/
def unwind_layers (L : Target) : List Event :=
  [.call .UnprepareLayer L, .call .DeactivateLayer L, .call .DestroyLayer L]

/-- The events up to and including the call of `HcsCreateComputeSystem`. -/
def to_create (L : Target) : List Event :=
  [.call .CreateSandboxLayer L, .call .ActivateLayer L, .call .PrepareLayer L,
    .call .GetLayerMountPath L, .call .HcsCreateComputeSystem L]

/-- The events up to and including the answered wait for the start of the compute system. -/
def to_started (L H : Target) : List Event :=
  to_create L ++
    [.lock, .call .HcsRegisterComputeSystemCallback H, .await .system_create_complete,
      .lock, .call .HcsStartComputeSystem H, .await .system_start_complete]

/-- The events of the last forward steps, after the compute system was started, up to and
including step `k`; `13` stands for the run in which no step fails. -/
def after_started (H P : Target) : Nat → List Event
  | 10 => [.call .HcsEnumerateComputeSystems .nothing]
  | 11 => [.call .HcsEnumerateComputeSystems .nothing, .call .HcsCreateProcess H]
  | 12 => [.call .HcsEnumerateComputeSystems .nothing, .call .HcsCreateProcess H,
      .lock, .call .HcsRegisterProcessCallback P, .cancel]
  | _ => [.call .HcsEnumerateComputeSystems .nothing, .call .HcsCreateProcess H,
      .lock, .call .HcsRegisterProcessCallback P, .await .process_exit]

/-- How the terminate guard ends: its wait is answered, its wait is never answered, or the
call did not answer "pending" and the latch is cancelled. -/
inductive Ending where
  | exited
  | stuck
  | cancelled
deriving DecidableEq, Repr

/-- The way through `spawn_and_wait`, once the ascendant chain is resolved: step `k` fails
before the compute system is started; the run blocks in the wait of step `k`; or the
compute system is started, the scope is left at step `k` (`13`: at its end) and the
terminate guard ends as given. -/
inductive Path where
  | failed (k : Nat)
  | waiting (k : Nat)
  | released (k : Nat) (e : Ending)
deriving DecidableEq, Repr

/-- How the terminate guard ends in a world. -/
def ending (w : World) : Ending :=
  if HcsErrors.operation_pending = w.rc .HcsTerminateComputeSystem then
    if notified w .HcsTerminateComputeSystem .system_exit = true then .exited else .stuck
  else .cancelled

/-- The way a world leads through `spawn_and_wait`. -/
def path (w : World) : Path :=
  if 0 ≠ w.rc .CreateSandboxLayer then .failed 2
  else if 0 ≠ w.rc .ActivateLayer then .failed 3
  else if 0 ≠ w.rc .PrepareLayer then .failed 4
  else if 0 ≠ w.rc .GetLayerMountPath then .failed 5
  else if HcsErrors.operation_pending ≠ w.rc .HcsCreateComputeSystem then .failed 7
  else if 0 ≠ w.rc .HcsRegisterComputeSystemCallback then .failed 8
  else if notified w .HcsRegisterComputeSystemCallback .system_create_complete = false then
    .waiting 8
  else if HcsErrors.operation_pending ≠ w.rc .HcsStartComputeSystem then .failed 9
  else if notified w .HcsStartComputeSystem .system_start_complete = false then .waiting 9
  else if 0 ≠ w.rc .HcsEnumerateComputeSystems then .released 10 (ending w)
  else if 0 ≠ w.rc .HcsCreateProcess then .released 11 (ending w)
  else if 0 ≠ w.rc .HcsRegisterProcessCallback then .released 12 (ending w)
  else if notified w .HcsRegisterProcessCallback .process_exit = false then .waiting 12
  else .released 13 (ending w)

/-- The final state when step `k` fails before the compute system is started. -/
def failed_state (L H : Target) : Nat → St
  | 2 => ⟨[.call .CreateSandboxLayer L], .Idle⟩
  | 3 => ⟨[.call .CreateSandboxLayer L, .call .ActivateLayer L, .call .DestroyLayer L], .Idle⟩
  | 4 => ⟨[.call .CreateSandboxLayer L, .call .ActivateLayer L, .call .PrepareLayer L,
      .call .DeactivateLayer L, .call .DestroyLayer L], .Idle⟩
  | 5 => ⟨[.call .CreateSandboxLayer L, .call .ActivateLayer L, .call .PrepareLayer L,
      .call .GetLayerMountPath L] ++ unwind_layers L, .Idle⟩
  | 7 => ⟨to_create L ++ unwind_layers L, .Idle⟩
  | 8 => ⟨to_create L ++ [.lock, .call .HcsRegisterComputeSystemCallback H, .cancel] ++
      unwind_layers L, .Cancelled⟩
  | _ => ⟨to_create L ++
      [.lock, .call .HcsRegisterComputeSystemCallback H, .await .system_create_complete,
        .lock, .call .HcsStartComputeSystem H, .cancel] ++ unwind_layers L, .Cancelled⟩

/-- The final state when the run blocks in the wait of step `k`. -/
def waiting_state (L H P : Target) : Nat → St
  | 8 => ⟨to_create L ++
      [.lock, .call .HcsRegisterComputeSystemCallback H, .await .system_create_complete],
      .Armed (some .system_create_complete)⟩
  | 9 => ⟨to_started L H, .Armed (some .system_start_complete)⟩
  | _ => ⟨to_started L H ++ after_started H P 13, .Armed (some .process_exit)⟩

/-- The result and the final state when the terminate guard has run: `r` is how the guarded
scope was left and `tr` the trace up to the call of `HcsTerminateComputeSystem`. -/
def released_end (L : Target) (r : Res Unit) (tr : List Event) : Ending → Res Unit × St
  | .exited => (r, ⟨tr ++ [.await .system_exit] ++ unwind_layers L, .Unlocked .system_exit⟩)
  | .stuck => (.blocked, ⟨tr ++ [.await .system_exit], .Armed (some .system_exit)⟩)
  | .cancelled => (r, ⟨tr ++ [.cancel] ++ unwind_layers L, .Cancelled⟩)

/-- The result and the final state at the end of each way through `spawn_and_wait`. -/
def leaf (w : World) (config : nspawn_config) (chain : List container_layer) :
    Path → Res Unit × St
  | .failed k =>
    (.thrown (step_exn w config chain k),
      failed_state (.layer (run_layer w config).name) (.handle w.computeSystem) k)
  | .waiting k =>
    (.blocked,
      waiting_state (.layer (run_layer w config).name) (.handle w.computeSystem)
        (.handle w.process) k)
  | .released k e =>
    released_end (.layer (run_layer w config).name)
      (if k = 13 then .ok () else .thrown (step_exn w config chain k))
      (to_started (.layer (run_layer w config).name) (.handle w.computeSystem) ++
        after_started (.handle w.computeSystem) (.handle w.process) k ++
        [.lock, .call .HcsTerminateComputeSystem (.handle w.computeSystem)])
      e

/-- The result and final state of `spawn_and_wait`, as a decision table over the return
codes and the delivered notifications. -/
def outcome (w : World) (config : nspawn_config) : Res Unit × St :=
  match collect_acsendant_layers w (w.strip_filename config.parent_layer_directory)
      (w.strip_parent_dir config.parent_layer_directory) with
  | .error e => (.thrown e, St.init)
  | .ok chain => leaf w config chain (path w)

/-! ## The phase table -/

/-- Whether step `j` of the phase table completes: its call reports success and, where the
step waits, the awaited notification is delivered. -/
def step_succeeds (w : World) (config : nspawn_config) : Nat → Bool
  | 1 =>
    match collect_acsendant_layers w (w.strip_filename config.parent_layer_directory)
        (w.strip_parent_dir config.parent_layer_directory) with
    | .ok _ => true
    | .error _ => false
  | 2 => decide (w.rc .CreateSandboxLayer = 0)
  | 3 => decide (w.rc .ActivateLayer = 0)
  | 4 => decide (w.rc .PrepareLayer = 0)
  | 5 => decide (w.rc .GetLayerMountPath = 0)
  | 7 => decide (w.rc .HcsCreateComputeSystem = HcsErrors.operation_pending)
  | 8 => decide (w.rc .HcsRegisterComputeSystemCallback = 0) &&
      notified w .HcsRegisterComputeSystemCallback .system_create_complete
  | 9 => decide (w.rc .HcsStartComputeSystem = HcsErrors.operation_pending) &&
      notified w .HcsStartComputeSystem .system_start_complete
  | 10 => decide (w.rc .HcsEnumerateComputeSystems = 0)
  | 11 => decide (w.rc .HcsCreateProcess = 0)
  | 12 => decide (w.rc .HcsRegisterProcessCallback = 0) &&
      notified w .HcsRegisterProcessCallback .process_exit
  | _ => true

/-- Whether the call of step `k` of the phase table reports a failure, by the test the
source applies to its return code. Step 1 is settled by `collect_acsendant_layers`; step 6
builds a value and has no test of its own in the source. -/
def step_fails (w : World) : Nat → Bool
  | 2 => decide (0 ≠ w.rc .CreateSandboxLayer)
  | 3 => decide (0 ≠ w.rc .ActivateLayer)
  | 4 => decide (0 ≠ w.rc .PrepareLayer)
  | 5 => decide (0 ≠ w.rc .GetLayerMountPath)
  | 7 => decide (HcsErrors.operation_pending ≠ w.rc .HcsCreateComputeSystem)
  | 8 => decide (0 ≠ w.rc .HcsRegisterComputeSystemCallback)
  | 9 => decide (HcsErrors.operation_pending ≠ w.rc .HcsStartComputeSystem)
  | 10 => decide (0 ≠ w.rc .HcsEnumerateComputeSystems)
  | 11 => decide (0 ≠ w.rc .HcsCreateProcess)
  | 12 => decide (0 ≠ w.rc .HcsRegisterProcessCallback)
  | _ => false

/-- The external call issued by each step of the phase table. -/
def phase_call : Nat → Option Api
  | 2 => some .CreateSandboxLayer
  | 3 => some .ActivateLayer
  | 4 => some .PrepareLayer
  | 5 => some .GetLayerMountPath
  | 7 => some .HcsCreateComputeSystem
  | 8 => some .HcsRegisterComputeSystemCallback
  | 9 => some .HcsStartComputeSystem
  | 10 => some .HcsEnumerateComputeSystems
  | 11 => some .HcsCreateProcess
  | 12 => some .HcsRegisterProcessCallback
  | _ => none

/-- The release call pushed by each step of the phase table, as the claim lists them:
destroy after create, deactivate after activate, unprepare after prepare, terminate after
start. -/
def phase_rollback : Nat → Option Api
  | 2 => some .DestroyLayer
  | 3 => some .DeactivateLayer
  | 4 => some .UnprepareLayer
  | 9 => some .HcsTerminateComputeSystem
  | _ => none

/-- The external calls of steps `1 .. k`, in order. -/
def forward_upto (k : Nat) : List Api := (List.range (k + 1)).filterMap phase_call

/-- The release calls pushed by the steps before `k`, in the order of pushing. -/
def pushed_before (k : Nat) : List Api := (List.range k).filterMap phase_rollback

/-- The release calls that belong to step `k` or to a later step. -/
def pushed_from (k : Nat) : List Api :=
  ((List.range 13).filter (fun j => decide (k ≤ j))).filterMap phase_rollback

/-- How the message of a failed forward step begins: the quoted name of the operation of
that step, followed by `failed,`. -/
def failed_tag : Nat → String
  | 2 => "'CreateSandboxLayer' failed,"
  | 3 => "'ActivateLayer' failed,"
  | 4 => "'PrepareLayer' failed,"
  | 5 => "'GetLayerMountPath' failed,"
  | 7 => "'HcsCreateComputeSystem' failed,"
  | 8 => "'HcsRegisterComputeSystemCallback' failed,"
  | 9 => "'HcsStartComputeSystem' failed,"
  | 10 => "'HcsEnumerateComputeSystems' failed,"
  | 11 => "'HcsCreateProcess' failed,"
  | 12 => "'HcsRegisterProcessCallback' failed,"
  | _ => ""

/-! ## The discipline of the latch -/

/-- The discipline of the latch, read off a trace: `lock` only when no armed period is
outstanding, `await` and `cancel` only to close the outstanding one, and nothing left
outstanding at the end. The flag says whether an armed period is outstanding. -/
def latch_protocol : Bool → List Event → Bool
  | armed, [] => !armed
  | armed, .lock :: es => !armed && latch_protocol true es
  | armed, .await _ :: es => armed && latch_protocol false es
  | armed, .cancel :: es => armed && latch_protocol false es
  | armed, .call _ _ :: es => latch_protocol armed es

/-- Whether an event is a call of `api`. -/
def Event.is_call (api : Api) : Event → Bool
  | .call a _ => decide (a = api)
  | _ => false

/-- The events before the first call of `api`. -/
def before_call (api : Api) (tr : List Event) : List Event :=
  tr.takeWhile (fun e => !e.is_call api)

/-- The events after the first call of `api`. -/
def after_call (api : Api) (tr : List Event) : List Event :=
  (tr.dropWhile (fun e => !e.is_call api)).drop 1

/-- The latch operations of the phase opened by the call of `api`: those after the call
and before the next `lock`. -/
def phase_ops (api : Api) (tr : List Event) : List Event :=
  (latch_ops (after_call api tr)).takeWhile (fun e => decide (e ≠ .lock))

/-! ## Worlds used as concrete inputs -/

/-- The configuration that the sample worlds load. -/
def sample_config : nspawn_config := ⟨"C:\\layers\\parent"⟩

/-- Scenario C: create and activate succeed, `PrepareLayer` fails with code 5. -/
def scenario_c : World := happy.with_rc .PrepareLayer 5

/-- Scenario B: `CreateSandboxLayer` fails with code 5. -/
def scenario_b : World := happy.with_rc .CreateSandboxLayer 5

/-- Scenario C with failing releases: `DeactivateLayer` answers 7 and `DestroyLayer`
answers 3. -/
def scenario_c_release_codes : Api → Nat := fun a =>
  if a = .DeactivateLayer then 7 else if a = .DestroyLayer then 3 else scenario_c.rc a

/-- A world in which only `HcsCreateProcess` fails, with code 5. -/
def process_fails : World := happy.with_rc .HcsCreateProcess 5

/-- A world in which only `HcsEnumerateComputeSystems` fails, with code 5. -/
def enumerate_fails : World := happy.with_rc .HcsEnumerateComputeSystems 5

/-- A world in which `HcsCreateComputeSystem` succeeds and only
`HcsRegisterComputeSystemCallback` fails, with code 5. -/
def register_fails : World := happy.with_rc .HcsRegisterComputeSystemCallback 5

/-- A world in which `HcsCreateComputeSystem` answers 0 instead of "pending". -/
def create_not_pending : World := happy.with_rc .HcsCreateComputeSystem 0

/-- A world in which `HcsEnumerateComputeSystems` fails with code 5 and the runtime, having
answered "pending" to `HcsTerminateComputeSystem`, never delivers `system_exit`. -/
def unanswered_terminate : World :=
  { enumerate_fails with
    notifications := fun a =>
      if a = .HcsTerminateComputeSystem then [] else happy.notifications a }

/-- The return codes of `unanswered_terminate`, except that `HcsTerminateComputeSystem`
answers the failure code 5 instead of "pending". -/
def terminate_refused : Api → Nat := fun a =>
  if a = .HcsTerminateComputeSystem then 5 else unanswered_terminate.rc a

/-- The world `happy` with the status of the `process_exit` notification replaced by 1. -/
def exit_status_one : Api → List Notification := fun a =>
  match a with
  | .HcsRegisterProcessCallback => [⟨65536, 1, some "exit"⟩]
  | _ => happy.notifications a

/-- Whether the compute system gets started: every step up to and including step 9
completes. -/
def started (w : World) (config : nspawn_config) : Bool :=
  (List.range 10).all (fun j => step_succeeds w config j)

/-- Whether the run blocks in the wait for the exit of the process: the steps after the
start complete up to the registration of the process callback, which answers 0, and no
`process_exit` notification is delivered. -/
def waits_for_process_exit (w : World) (config : nspawn_config) : Bool :=
  step_succeeds w config 10 && step_succeeds w config 11 &&
    !step_succeeds w config 12 && !step_fails w 12

/-! ## Lemmas on the latch and the control flow -/

theorem deliver_not_armed (w : World) (ns : List Notification) (la : callback_latch)
    (h : ∀ k, la ≠ .Armed (some k)) : deliver w ns la = la := by
  induction ns with
  | nil => rfl
  | cons n ns ih =>
    have h1 : container_callback w n la = la := by
      cases la with
      | Armed e =>
        cases e with
        | none => rfl
        | some k => exact absurd rfl (h k)
      | _ => rfl
    simp only [deliver, List.foldl_cons] at ih ⊢
    rw [h1]
    exact ih

theorem deliver_armed (w : World) (ns : List Notification) (k : notification_type) :
    deliver w ns (.Armed (some k)) =
      if k ∈ ns.map (fun n => w.to_notification_type n.notificationType)
      then .Unlocked k else .Armed (some k) := by
  induction ns with
  | nil => simp [deliver]
  | cons n ns ih =>
    simp only [deliver, List.foldl_cons, List.map_cons, List.mem_cons] at ih ⊢
    by_cases hk : w.to_notification_type n.notificationType = k
    · have h1 : container_callback w n (.Armed (some k)) = .Unlocked k := by
        simp [container_callback, callback_latch.unlock, hk]
      rw [h1]
      have h2 := deliver_not_armed w ns (.Unlocked k) (by intro k0; simp)
      simp only [deliver] at h2
      rw [h2]
      simp [hk]
    · have h1 : container_callback w n (.Armed (some k)) = .Armed (some k) := by
        simp [container_callback, callback_latch.unlock, hk]
      rw [h1, ih]
      have hk2 : ¬ k = w.to_notification_type n.notificationType := fun h => hk h.symm
      simp [hk2]

/-- The wait entered on an armed latch returns exactly when the expected kind is among the
delivered notifications, and blocks otherwise. -/
theorem latch_await_armed (w : World) (after : Api) (kind : notification_type)
    (tr : List Event) (e : Option notification_type) :
    latch_await w after kind ⟨tr, .Armed e⟩ =
      if notified w after kind = true
      then (.ok (), ⟨tr ++ [.await kind], .Unlocked kind⟩)
      else (.blocked, ⟨tr ++ [.await kind], .Armed (some kind)⟩) := by
  simp only [latch_await, callback_latch.expect, deliver_armed, notified, kinds,
    decide_eq_true_eq]
  by_cases h : kind ∈ List.map (fun n => w.to_notification_type n.notificationType)
      (w.notifications after)
  · simp only [h, if_true, callback_latch.wake]
  · simp only [h, if_false, callback_latch.wake]

/-- The orchestrator run from the initial state is the decision table `outcome`. -/
theorem spawn_and_wait_eq_outcome (w : World) (config : nspawn_config) :
    spawn_and_wait w config St.init = outcome w config := by
  unfold outcome
  cases h1 : collect_acsendant_layers w (w.strip_filename config.parent_layer_directory)
      (w.strip_parent_dir config.parent_layer_directory) with
  | error e => simp [spawn_and_wait, h1, lift, bind, M.bind, raise]
  | ok chain =>
    by_cases c2 : w.rc .CreateSandboxLayer = 0
    swap
    ·
      simp [spawn_and_wait, h1, lift, bind, M.bind, M.pure, pure, raise, defer, noexcept,
        hcs_create_layer, hcs_activate_layer, hcs_prepare_layer, hcs_get_layer_mount_path,
        hcs_create_compute_system, hcs_register_compute_system_callback,
        hcs_start_compute_system, hcs_enumerate_compute_systems, hcs_create_process,
        hcs_register_process_callback, hcs_terminate_compute_system, hcs_unprepare_layer,
        hcs_deactivate_layer, hcs_destroy_layer, call, new_latch, latch_lock, latch_cancel,
        callback_latch.lock, callback_latch.cancel, latch_await_armed, St.init, leaf, path,
        ending, after_started, failed_state, waiting_state, released_end, step_exn, run_layer,
        unwind_layers, to_create, to_started,
        Ne.symm c2]
    by_cases c3 : w.rc .ActivateLayer = 0
    swap
    ·
      simp [spawn_and_wait, h1, lift, bind, M.bind, M.pure, pure, raise, defer, noexcept,
        hcs_create_layer, hcs_activate_layer, hcs_prepare_layer, hcs_get_layer_mount_path,
        hcs_create_compute_system, hcs_register_compute_system_callback,
        hcs_start_compute_system, hcs_enumerate_compute_systems, hcs_create_process,
        hcs_register_process_callback, hcs_terminate_compute_system, hcs_unprepare_layer,
        hcs_deactivate_layer, hcs_destroy_layer, call, new_latch, latch_lock, latch_cancel,
        callback_latch.lock, callback_latch.cancel, latch_await_armed, St.init, leaf, path,
        ending, after_started, failed_state, waiting_state, released_end, step_exn, run_layer,
        unwind_layers, to_create, to_started,
        c2, Ne.symm c3]
    by_cases c4 : w.rc .PrepareLayer = 0
    swap
    ·
      simp [spawn_and_wait, h1, lift, bind, M.bind, M.pure, pure, raise, defer, noexcept,
        hcs_create_layer, hcs_activate_layer, hcs_prepare_layer, hcs_get_layer_mount_path,
        hcs_create_compute_system, hcs_register_compute_system_callback,
        hcs_start_compute_system, hcs_enumerate_compute_systems, hcs_create_process,
        hcs_register_process_callback, hcs_terminate_compute_system, hcs_unprepare_layer,
        hcs_deactivate_layer, hcs_destroy_layer, call, new_latch, latch_lock, latch_cancel,
        callback_latch.lock, callback_latch.cancel, latch_await_armed, St.init, leaf, path,
        ending, after_started, failed_state, waiting_state, released_end, step_exn, run_layer,
        unwind_layers, to_create, to_started,
        c2, c3, Ne.symm c4]
    by_cases c5 : w.rc .GetLayerMountPath = 0
    swap
    ·
      simp [spawn_and_wait, h1, lift, bind, M.bind, M.pure, pure, raise, defer, noexcept,
        hcs_create_layer, hcs_activate_layer, hcs_prepare_layer, hcs_get_layer_mount_path,
        hcs_create_compute_system, hcs_register_compute_system_callback,
        hcs_start_compute_system, hcs_enumerate_compute_systems, hcs_create_process,
        hcs_register_process_callback, hcs_terminate_compute_system, hcs_unprepare_layer,
        hcs_deactivate_layer, hcs_destroy_layer, call, new_latch, latch_lock, latch_cancel,
        callback_latch.lock, callback_latch.cancel, latch_await_armed, St.init, leaf, path,
        ending, after_started, failed_state, waiting_state, released_end, step_exn, run_layer,
        unwind_layers, to_create, to_started,
        c2, c3, c4, Ne.symm c5]
    by_cases c7 : w.rc .HcsCreateComputeSystem = HcsErrors.operation_pending
    swap
    ·
      simp [spawn_and_wait, h1, lift, bind, M.bind, M.pure, pure, raise, defer, noexcept,
        hcs_create_layer, hcs_activate_layer, hcs_prepare_layer, hcs_get_layer_mount_path,
        hcs_create_compute_system, hcs_register_compute_system_callback,
        hcs_start_compute_system, hcs_enumerate_compute_systems, hcs_create_process,
        hcs_register_process_callback, hcs_terminate_compute_system, hcs_unprepare_layer,
        hcs_deactivate_layer, hcs_destroy_layer, call, new_latch, latch_lock, latch_cancel,
        callback_latch.lock, callback_latch.cancel, latch_await_armed, St.init, leaf, path,
        ending, after_started, failed_state, waiting_state, released_end, step_exn, run_layer,
        unwind_layers, to_create, to_started,
        c2, c3, c4, c5, Ne.symm c7]
    by_cases c8 : w.rc .HcsRegisterComputeSystemCallback = 0
    swap
    ·
      simp [spawn_and_wait, h1, lift, bind, M.bind, M.pure, pure, raise, defer, noexcept,
        hcs_create_layer, hcs_activate_layer, hcs_prepare_layer, hcs_get_layer_mount_path,
        hcs_create_compute_system, hcs_register_compute_system_callback,
        hcs_start_compute_system, hcs_enumerate_compute_systems, hcs_create_process,
        hcs_register_process_callback, hcs_terminate_compute_system, hcs_unprepare_layer,
        hcs_deactivate_layer, hcs_destroy_layer, call, new_latch, latch_lock, latch_cancel,
        callback_latch.lock, callback_latch.cancel, latch_await_armed, St.init, leaf, path,
        ending, after_started, failed_state, waiting_state, released_end, step_exn, run_layer,
        unwind_layers, to_create, to_started,
        c2, c3, c4, c5, c7, Ne.symm c8]
    by_cases n8 : notified w .HcsRegisterComputeSystemCallback .system_create_complete = true
    swap
    ·
      simp [spawn_and_wait, h1, lift, bind, M.bind, M.pure, pure, raise, defer, noexcept,
        hcs_create_layer, hcs_activate_layer, hcs_prepare_layer, hcs_get_layer_mount_path,
        hcs_create_compute_system, hcs_register_compute_system_callback,
        hcs_start_compute_system, hcs_enumerate_compute_systems, hcs_create_process,
        hcs_register_process_callback, hcs_terminate_compute_system, hcs_unprepare_layer,
        hcs_deactivate_layer, hcs_destroy_layer, call, new_latch, latch_lock, latch_cancel,
        callback_latch.lock, callback_latch.cancel, latch_await_armed, St.init, leaf, path,
        ending, after_started, failed_state, waiting_state, released_end, step_exn, run_layer,
        unwind_layers, to_create, to_started,
        c2, c3, c4, c5, c7, c8, n8]
    by_cases c9 : w.rc .HcsStartComputeSystem = HcsErrors.operation_pending
    swap
    ·
      simp [spawn_and_wait, h1, lift, bind, M.bind, M.pure, pure, raise, defer, noexcept,
        hcs_create_layer, hcs_activate_layer, hcs_prepare_layer, hcs_get_layer_mount_path,
        hcs_create_compute_system, hcs_register_compute_system_callback,
        hcs_start_compute_system, hcs_enumerate_compute_systems, hcs_create_process,
        hcs_register_process_callback, hcs_terminate_compute_system, hcs_unprepare_layer,
        hcs_deactivate_layer, hcs_destroy_layer, call, new_latch, latch_lock, latch_cancel,
        callback_latch.lock, callback_latch.cancel, latch_await_armed, St.init, leaf, path,
        ending, after_started, failed_state, waiting_state, released_end, step_exn, run_layer,
        unwind_layers, to_create, to_started,
        c2, c3, c4, c5, c7, c8, n8, Ne.symm c9]
    by_cases n9 : notified w .HcsStartComputeSystem .system_start_complete = true
    swap
    ·
      simp [spawn_and_wait, h1, lift, bind, M.bind, M.pure, pure, raise, defer, noexcept,
        hcs_create_layer, hcs_activate_layer, hcs_prepare_layer, hcs_get_layer_mount_path,
        hcs_create_compute_system, hcs_register_compute_system_callback,
        hcs_start_compute_system, hcs_enumerate_compute_systems, hcs_create_process,
        hcs_register_process_callback, hcs_terminate_compute_system, hcs_unprepare_layer,
        hcs_deactivate_layer, hcs_destroy_layer, call, new_latch, latch_lock, latch_cancel,
        callback_latch.lock, callback_latch.cancel, latch_await_armed, St.init, leaf, path,
        ending, after_started, failed_state, waiting_state, released_end, step_exn, run_layer,
        unwind_layers, to_create, to_started,
        c2, c3, c4, c5, c7, c8, n8, c9, n9]
    by_cases c10 : w.rc .HcsEnumerateComputeSystems = 0
    swap
    ·
      by_cases ct : w.rc .HcsTerminateComputeSystem = HcsErrors.operation_pending
      · by_cases nt : notified w .HcsTerminateComputeSystem .system_exit = true
        ·
          simp [spawn_and_wait, h1, lift, bind, M.bind, M.pure, pure, raise, defer, noexcept,
            hcs_create_layer, hcs_activate_layer, hcs_prepare_layer, hcs_get_layer_mount_path,
            hcs_create_compute_system, hcs_register_compute_system_callback,
            hcs_start_compute_system, hcs_enumerate_compute_systems, hcs_create_process,
            hcs_register_process_callback, hcs_terminate_compute_system, hcs_unprepare_layer,
            hcs_deactivate_layer, hcs_destroy_layer, call, new_latch, latch_lock, latch_cancel,
            callback_latch.lock, callback_latch.cancel, latch_await_armed, St.init, leaf, path,
            ending, after_started, failed_state, waiting_state, released_end, step_exn, run_layer,
            unwind_layers, to_create, to_started,
            c2, c3, c4, c5, c7, c8, n8, c9, n9, Ne.symm c10, ct, nt]
        ·
          simp [spawn_and_wait, h1, lift, bind, M.bind, M.pure, pure, raise, defer, noexcept,
            hcs_create_layer, hcs_activate_layer, hcs_prepare_layer, hcs_get_layer_mount_path,
            hcs_create_compute_system, hcs_register_compute_system_callback,
            hcs_start_compute_system, hcs_enumerate_compute_systems, hcs_create_process,
            hcs_register_process_callback, hcs_terminate_compute_system, hcs_unprepare_layer,
            hcs_deactivate_layer, hcs_destroy_layer, call, new_latch, latch_lock, latch_cancel,
            callback_latch.lock, callback_latch.cancel, latch_await_armed, St.init, leaf, path,
            ending, after_started, failed_state, waiting_state, released_end, step_exn, run_layer,
            unwind_layers, to_create, to_started,
            c2, c3, c4, c5, c7, c8, n8, c9, n9, Ne.symm c10, ct, nt]
      ·
        simp [spawn_and_wait, h1, lift, bind, M.bind, M.pure, pure, raise, defer, noexcept,
          hcs_create_layer, hcs_activate_layer, hcs_prepare_layer, hcs_get_layer_mount_path,
          hcs_create_compute_system, hcs_register_compute_system_callback,
          hcs_start_compute_system, hcs_enumerate_compute_systems, hcs_create_process,
          hcs_register_process_callback, hcs_terminate_compute_system, hcs_unprepare_layer,
          hcs_deactivate_layer, hcs_destroy_layer, call, new_latch, latch_lock, latch_cancel,
          callback_latch.lock, callback_latch.cancel, latch_await_armed, St.init, leaf, path,
          ending, after_started, failed_state, waiting_state, released_end, step_exn, run_layer,
          unwind_layers, to_create, to_started,
          c2, c3, c4, c5, c7, c8, n8, c9, n9, Ne.symm c10, Ne.symm ct]
    by_cases c11 : w.rc .HcsCreateProcess = 0
    swap
    ·
      by_cases ct : w.rc .HcsTerminateComputeSystem = HcsErrors.operation_pending
      · by_cases nt : notified w .HcsTerminateComputeSystem .system_exit = true
        ·
          simp [spawn_and_wait, h1, lift, bind, M.bind, M.pure, pure, raise, defer, noexcept,
            hcs_create_layer, hcs_activate_layer, hcs_prepare_layer, hcs_get_layer_mount_path,
            hcs_create_compute_system, hcs_register_compute_system_callback,
            hcs_start_compute_system, hcs_enumerate_compute_systems, hcs_create_process,
            hcs_register_process_callback, hcs_terminate_compute_system, hcs_unprepare_layer,
            hcs_deactivate_layer, hcs_destroy_layer, call, new_latch, latch_lock, latch_cancel,
            callback_latch.lock, callback_latch.cancel, latch_await_armed, St.init, leaf, path,
            ending, after_started, failed_state, waiting_state, released_end, step_exn, run_layer,
            unwind_layers, to_create, to_started,
            c2, c3, c4, c5, c7, c8, n8, c9, n9, c10, Ne.symm c11, ct, nt]
        ·
          simp [spawn_and_wait, h1, lift, bind, M.bind, M.pure, pure, raise, defer, noexcept,
            hcs_create_layer, hcs_activate_layer, hcs_prepare_layer, hcs_get_layer_mount_path,
            hcs_create_compute_system, hcs_register_compute_system_callback,
            hcs_start_compute_system, hcs_enumerate_compute_systems, hcs_create_process,
            hcs_register_process_callback, hcs_terminate_compute_system, hcs_unprepare_layer,
            hcs_deactivate_layer, hcs_destroy_layer, call, new_latch, latch_lock, latch_cancel,
            callback_latch.lock, callback_latch.cancel, latch_await_armed, St.init, leaf, path,
            ending, after_started, failed_state, waiting_state, released_end, step_exn, run_layer,
            unwind_layers, to_create, to_started,
            c2, c3, c4, c5, c7, c8, n8, c9, n9, c10, Ne.symm c11, ct, nt]
      ·
        simp [spawn_and_wait, h1, lift, bind, M.bind, M.pure, pure, raise, defer, noexcept,
          hcs_create_layer, hcs_activate_layer, hcs_prepare_layer, hcs_get_layer_mount_path,
          hcs_create_compute_system, hcs_register_compute_system_callback,
          hcs_start_compute_system, hcs_enumerate_compute_systems, hcs_create_process,
          hcs_register_process_callback, hcs_terminate_compute_system, hcs_unprepare_layer,
          hcs_deactivate_layer, hcs_destroy_layer, call, new_latch, latch_lock, latch_cancel,
          callback_latch.lock, callback_latch.cancel, latch_await_armed, St.init, leaf, path,
          ending, after_started, failed_state, waiting_state, released_end, step_exn, run_layer,
          unwind_layers, to_create, to_started,
          c2, c3, c4, c5, c7, c8, n8, c9, n9, c10, Ne.symm c11, Ne.symm ct]
    by_cases c12 : w.rc .HcsRegisterProcessCallback = 0
    swap
    ·
      by_cases ct : w.rc .HcsTerminateComputeSystem = HcsErrors.operation_pending
      · by_cases nt : notified w .HcsTerminateComputeSystem .system_exit = true
        ·
          simp [spawn_and_wait, h1, lift, bind, M.bind, M.pure, pure, raise, defer, noexcept,
            hcs_create_layer, hcs_activate_layer, hcs_prepare_layer, hcs_get_layer_mount_path,
            hcs_create_compute_system, hcs_register_compute_system_callback,
            hcs_start_compute_system, hcs_enumerate_compute_systems, hcs_create_process,
            hcs_register_process_callback, hcs_terminate_compute_system, hcs_unprepare_layer,
            hcs_deactivate_layer, hcs_destroy_layer, call, new_latch, latch_lock, latch_cancel,
            callback_latch.lock, callback_latch.cancel, latch_await_armed, St.init, leaf, path,
            ending, after_started, failed_state, waiting_state, released_end, step_exn, run_layer,
            unwind_layers, to_create, to_started,
            c2, c3, c4, c5, c7, c8, n8, c9, n9, c10, c11, Ne.symm c12, ct, nt]
        ·
          simp [spawn_and_wait, h1, lift, bind, M.bind, M.pure, pure, raise, defer, noexcept,
            hcs_create_layer, hcs_activate_layer, hcs_prepare_layer, hcs_get_layer_mount_path,
            hcs_create_compute_system, hcs_register_compute_system_callback,
            hcs_start_compute_system, hcs_enumerate_compute_systems, hcs_create_process,
            hcs_register_process_callback, hcs_terminate_compute_system, hcs_unprepare_layer,
            hcs_deactivate_layer, hcs_destroy_layer, call, new_latch, latch_lock, latch_cancel,
            callback_latch.lock, callback_latch.cancel, latch_await_armed, St.init, leaf, path,
            ending, after_started, failed_state, waiting_state, released_end, step_exn, run_layer,
            unwind_layers, to_create, to_started,
            c2, c3, c4, c5, c7, c8, n8, c9, n9, c10, c11, Ne.symm c12, ct, nt]
      ·
        simp [spawn_and_wait, h1, lift, bind, M.bind, M.pure, pure, raise, defer, noexcept,
          hcs_create_layer, hcs_activate_layer, hcs_prepare_layer, hcs_get_layer_mount_path,
          hcs_create_compute_system, hcs_register_compute_system_callback,
          hcs_start_compute_system, hcs_enumerate_compute_systems, hcs_create_process,
          hcs_register_process_callback, hcs_terminate_compute_system, hcs_unprepare_layer,
          hcs_deactivate_layer, hcs_destroy_layer, call, new_latch, latch_lock, latch_cancel,
          callback_latch.lock, callback_latch.cancel, latch_await_armed, St.init, leaf, path,
          ending, after_started, failed_state, waiting_state, released_end, step_exn, run_layer,
          unwind_layers, to_create, to_started,
          c2, c3, c4, c5, c7, c8, n8, c9, n9, c10, c11, Ne.symm c12, Ne.symm ct]
    by_cases n12 : notified w .HcsRegisterProcessCallback .process_exit = true
    swap
    ·
      simp [spawn_and_wait, h1, lift, bind, M.bind, M.pure, pure, raise, defer, noexcept,
        hcs_create_layer, hcs_activate_layer, hcs_prepare_layer, hcs_get_layer_mount_path,
        hcs_create_compute_system, hcs_register_compute_system_callback,
        hcs_start_compute_system, hcs_enumerate_compute_systems, hcs_create_process,
        hcs_register_process_callback, hcs_terminate_compute_system, hcs_unprepare_layer,
        hcs_deactivate_layer, hcs_destroy_layer, call, new_latch, latch_lock, latch_cancel,
        callback_latch.lock, callback_latch.cancel, latch_await_armed, St.init, leaf, path,
        ending, after_started, failed_state, waiting_state, released_end, step_exn, run_layer,
        unwind_layers, to_create, to_started,
        c2, c3, c4, c5, c7, c8, n8, c9, n9, c10, c11, c12, n12]
    by_cases ct : w.rc .HcsTerminateComputeSystem = HcsErrors.operation_pending
    · by_cases nt : notified w .HcsTerminateComputeSystem .system_exit = true
      ·
        simp [spawn_and_wait, h1, lift, bind, M.bind, M.pure, pure, raise, defer, noexcept,
          hcs_create_layer, hcs_activate_layer, hcs_prepare_layer, hcs_get_layer_mount_path,
          hcs_create_compute_system, hcs_register_compute_system_callback,
          hcs_start_compute_system, hcs_enumerate_compute_systems, hcs_create_process,
          hcs_register_process_callback, hcs_terminate_compute_system, hcs_unprepare_layer,
          hcs_deactivate_layer, hcs_destroy_layer, call, new_latch, latch_lock, latch_cancel,
          callback_latch.lock, callback_latch.cancel, latch_await_armed, St.init, leaf, path,
          ending, after_started, failed_state, waiting_state, released_end, step_exn, run_layer,
          unwind_layers, to_create, to_started,
          c2, c3, c4, c5, c7, c8, n8, c9, n9, c10, c11, c12, n12, ct, nt]
      ·
        simp [spawn_and_wait, h1, lift, bind, M.bind, M.pure, pure, raise, defer, noexcept,
          hcs_create_layer, hcs_activate_layer, hcs_prepare_layer, hcs_get_layer_mount_path,
          hcs_create_compute_system, hcs_register_compute_system_callback,
          hcs_start_compute_system, hcs_enumerate_compute_systems, hcs_create_process,
          hcs_register_process_callback, hcs_terminate_compute_system, hcs_unprepare_layer,
          hcs_deactivate_layer, hcs_destroy_layer, call, new_latch, latch_lock, latch_cancel,
          callback_latch.lock, callback_latch.cancel, latch_await_armed, St.init, leaf, path,
          ending, after_started, failed_state, waiting_state, released_end, step_exn, run_layer,
          unwind_layers, to_create, to_started,
          c2, c3, c4, c5, c7, c8, n8, c9, n9, c10, c11, c12, n12, ct, nt]
    ·
      simp [spawn_and_wait, h1, lift, bind, M.bind, M.pure, pure, raise, defer, noexcept,
        hcs_create_layer, hcs_activate_layer, hcs_prepare_layer, hcs_get_layer_mount_path,
        hcs_create_compute_system, hcs_register_compute_system_callback,
        hcs_start_compute_system, hcs_enumerate_compute_systems, hcs_create_process,
        hcs_register_process_callback, hcs_terminate_compute_system, hcs_unprepare_layer,
        hcs_deactivate_layer, hcs_destroy_layer, call, new_latch, latch_lock, latch_cancel,
        callback_latch.lock, callback_latch.cancel, latch_await_armed, St.init, leaf, path,
        ending, after_started, failed_state, waiting_state, released_end, step_exn, run_layer,
        unwind_layers, to_create, to_started,
        c2, c3, c4, c5, c7, c8, n8, c9, n9, c10, c11, c12, n12, Ne.symm ct]

/-- Case analysis on the way through `spawn_and_wait`: a step fails before the compute
system is started, a wait is never answered, or the terminate guard runs. -/
theorem path_cases (w : World) (config : nspawn_config) (Q : Path → Prop)
    (hfail : ∀ k, 2 ≤ k → k ≤ 9 →
      (∀ j, 2 ≤ j → j < k → step_succeeds w config j = true) →
      step_fails w k = true → Q (.failed k))
    (hwait : ∀ k, 8 ≤ k → k ≤ 12 →
      (∀ j, 2 ≤ j → j < k → step_succeeds w config j = true) →
      step_succeeds w config k = false → step_fails w k = false → Q (.waiting k))
    (hrel : ∀ k, 10 ≤ k → k ≤ 13 →
      (∀ j, 2 ≤ j → j < k → step_succeeds w config j = true) →
      (k = 13 ∨ step_fails w k = true) → Q (.released k (ending w))) :
    Q (path w) := by
  by_cases c2 : w.rc .CreateSandboxLayer = 0
  swap
  · have hp : path w = .failed 2 := by simp [path, Ne.symm c2]
    rw [hp]
    exact hfail 2 (by norm_num) (by norm_num)
      (fun j hj1 hj2 => by omega)
      (by simp [step_fails, Ne.symm c2])
  by_cases c3 : w.rc .ActivateLayer = 0
  swap
  · have hp : path w = .failed 3 := by simp [path, c2, Ne.symm c3]
    rw [hp]
    exact hfail 3 (by norm_num) (by norm_num)
      (fun j hj1 hj2 => by
        interval_cases j
        simp [step_succeeds, c2])
      (by simp [step_fails, Ne.symm c3])
  by_cases c4 : w.rc .PrepareLayer = 0
  swap
  · have hp : path w = .failed 4 := by simp [path, c2, c3, Ne.symm c4]
    rw [hp]
    exact hfail 4 (by norm_num) (by norm_num)
      (fun j hj1 hj2 => by
        interval_cases j <;> simp [step_succeeds, c2, c3])
      (by simp [step_fails, Ne.symm c4])
  by_cases c5 : w.rc .GetLayerMountPath = 0
  swap
  · have hp : path w = .failed 5 := by simp [path, c2, c3, c4, Ne.symm c5]
    rw [hp]
    exact hfail 5 (by norm_num) (by norm_num)
      (fun j hj1 hj2 => by
        interval_cases j <;> simp [step_succeeds, c2, c3, c4])
      (by simp [step_fails, Ne.symm c5])
  by_cases c7 : w.rc .HcsCreateComputeSystem = HcsErrors.operation_pending
  swap
  · have hp : path w = .failed 7 := by simp [path, c2, c3, c4, c5, Ne.symm c7]
    rw [hp]
    exact hfail 7 (by norm_num) (by norm_num)
      (fun j hj1 hj2 => by
        interval_cases j <;> simp [step_succeeds, c2, c3, c4, c5])
      (by simp [step_fails, Ne.symm c7])
  by_cases c8 : w.rc .HcsRegisterComputeSystemCallback = 0
  swap
  · have hp : path w = .failed 8 := by simp [path, c2, c3, c4, c5, c7, Ne.symm c8]
    rw [hp]
    exact hfail 8 (by norm_num) (by norm_num)
      (fun j hj1 hj2 => by
        interval_cases j <;> simp [step_succeeds, c2, c3, c4, c5, c7])
      (by simp [step_fails, Ne.symm c8])
  by_cases n8 : notified w .HcsRegisterComputeSystemCallback .system_create_complete = true
  swap
  · have hp : path w = .waiting 8 := by simp [path, c2, c3, c4, c5, c7, c8, n8]
    rw [hp]
    exact hwait 8 (by norm_num) (by norm_num)
      (fun j hj1 hj2 => by
        interval_cases j <;> simp [step_succeeds, c2, c3, c4, c5, c7, c8])
      (by simp [step_succeeds, c2, c3, c4, c5, c7, c8, n8])
      (by simp [step_fails, c2, c3, c4, c5, c7, c8])
  by_cases c9 : w.rc .HcsStartComputeSystem = HcsErrors.operation_pending
  swap
  · have hp : path w = .failed 9 := by simp [path, c2, c3, c4, c5, c7, c8, n8, Ne.symm c9]
    rw [hp]
    exact hfail 9 (by norm_num) (by norm_num)
      (fun j hj1 hj2 => by
        interval_cases j <;> simp [step_succeeds, c2, c3, c4, c5, c7, c8, n8])
      (by simp [step_fails, Ne.symm c9])
  by_cases n9 : notified w .HcsStartComputeSystem .system_start_complete = true
  swap
  · have hp : path w = .waiting 9 := by simp [path, c2, c3, c4, c5, c7, c8, n8, c9, n9]
    rw [hp]
    exact hwait 9 (by norm_num) (by norm_num)
      (fun j hj1 hj2 => by
        interval_cases j <;> simp [step_succeeds, c2, c3, c4, c5, c7, c8, n8, c9])
      (by simp [step_succeeds, c2, c3, c4, c5, c7, c8, n8, c9, n9])
      (by simp [step_fails, c2, c3, c4, c5, c7, c8, n8, c9])
  by_cases c10 : w.rc .HcsEnumerateComputeSystems = 0
  swap
  · have hp : path w = .released 10 (ending w) := by
      simp [path, c2, c3, c4, c5, c7, c8, n8, c9, n9, Ne.symm c10]
    rw [hp]
    exact hrel 10 (by norm_num) (by norm_num)
      (fun j hj1 hj2 => by
        interval_cases j <;> simp [step_succeeds, c2, c3, c4, c5, c7, c8, n8, c9, n9])
      (Or.inr (by simp [step_fails, Ne.symm c10]))
  by_cases c11 : w.rc .HcsCreateProcess = 0
  swap
  · have hp : path w = .released 11 (ending w) := by
      simp [path, c2, c3, c4, c5, c7, c8, n8, c9, n9, c10, Ne.symm c11]
    rw [hp]
    exact hrel 11 (by norm_num) (by norm_num)
      (fun j hj1 hj2 => by
        interval_cases j <;> simp [step_succeeds, c2, c3, c4, c5, c7, c8, n8, c9, n9, c10])
      (Or.inr (by simp [step_fails, Ne.symm c11]))
  by_cases c12 : w.rc .HcsRegisterProcessCallback = 0
  swap
  · have hp : path w = .released 12 (ending w) := by
      simp [path, c2, c3, c4, c5, c7, c8, n8, c9, n9, c10, c11, Ne.symm c12]
    rw [hp]
    exact hrel 12 (by norm_num) (by norm_num)
      (fun j hj1 hj2 => by
        interval_cases j <;> simp [step_succeeds, c2, c3, c4, c5, c7, c8, n8, c9, n9, c10, c11])
      (Or.inr (by simp [step_fails, Ne.symm c12]))
  by_cases n12 : notified w .HcsRegisterProcessCallback .process_exit = true
  swap
  · have hp : path w = .waiting 12 := by
      simp [path, c2, c3, c4, c5, c7, c8, n8, c9, n9, c10, c11, c12, n12]
    rw [hp]
    exact hwait 12 (by norm_num) (by norm_num)
      (fun j hj1 hj2 => by
        interval_cases j <;> simp [step_succeeds, c2, c3, c4, c5, c7, c8, n8, c9, n9, c10, c11,
          c12])
      (by simp [step_succeeds, c2, c3, c4, c5, c7, c8, n8, c9, n9, c10, c11, c12, n12])
      (by simp [step_fails, c2, c3, c4, c5, c7, c8, n8, c9, n9, c10, c11, c12])
  have hp : path w = .released 13 (ending w) := by
      simp [path, c2, c3, c4, c5, c7, c8, n8, c9, n9, c10, c11, c12, n12]
  rw [hp]
  exact hrel 13 (by norm_num) (by norm_num)
    (fun j hj1 hj2 => by
        interval_cases j <;> simp [step_succeeds, c2, c3, c4, c5, c7, c8, n8, c9, n9, c10, c11,
          c12, n12])
    (Or.inl rfl)

/-- The loop of `collect_acsendant_layers` over a manifest of path strings appends the
split entries in order. -/
theorem collect_loop_strings (w : World) (json_file : String) (ds : List String)
    (res : List container_layer) :
    collect_loop w json_file (ds.map json.string) res =
      .ok (res ++ ds.map (fun d => ⟨w.strip_filename d, w.strip_parent_dir d⟩)) := by
  induction ds generalizing res with
  | nil => simp [collect_loop]
  | cons d ds ih =>
    simp only [List.map_cons, collect_loop, json.as_string_or_throw]
    rw [ih]
    simp

/-- The loop of `collect_acsendant_layers` reads the world through its two path helpers
only. -/
theorem collect_loop_congr (w w2 : World) (hf : w2.strip_filename = w.strip_filename)
    (hp : w2.strip_parent_dir = w.strip_parent_dir) (json_file : String) (js : List json)
    (res : List container_layer) :
    collect_loop w2 json_file js res = collect_loop w json_file js res := by
  induction js generalizing res with
  | nil => rfl
  | cons el rest ih =>
    simp only [collect_loop]
    cases el.as_string_or_throw json_file with
    | error e => rfl
    | ok path => simp only [hf, hp, ih]

/-- The function `collect_acsendant_layers` reads the world through its path helpers and
the manifest only. -/
theorem collect_congr (w w2 : World) (hf : w2.strip_filename = w.strip_filename)
    (hp : w2.strip_parent_dir = w.strip_parent_dir) (hl : w2.load_json = w.load_json)
    (base_path parent_layer_name : String) :
    collect_acsendant_layers w2 base_path parent_layer_name =
      collect_acsendant_layers w base_path parent_layer_name := by
  simp only [collect_acsendant_layers, hl, collect_loop_congr w w2 hf hp]

/-- A terminate guard that comes back ends with an answered wait or with a cancelled
latch. -/
theorem ending_of_completes (w : World) (h : terminate_completes w = true) :
    ending w = .exited ∨ ending w = .cancelled := by
  simp only [terminate_completes, decide_eq_true_eq] at h
  by_cases ct : w.rc .HcsTerminateComputeSystem = HcsErrors.operation_pending
  · left
    simp [ending, ct, h ct]
  · right
    simp [ending, Ne.symm ct]

/-- Step 1 of the phase table succeeds exactly when the ascendant chain is resolved. -/
theorem step_one (w : World) (config : nspawn_config)
    (h : step_succeeds w config 1 = true) :
    ∃ chain, collect_acsendant_layers w (w.strip_filename config.parent_layer_directory)
      (w.strip_parent_dir config.parent_layer_directory) = .ok chain := by
  simp only [step_succeeds] at h
  cases hc : collect_acsendant_layers w (w.strip_filename config.parent_layer_directory)
      (w.strip_parent_dir config.parent_layer_directory) with
  | error e => simp [hc] at h
  | ok chain => exact ⟨chain, rfl⟩

/-- The decision table once the ascendant chain is resolved. -/
theorem outcome_resolved (w : World) (config : nspawn_config) (chain : List container_layer)
    (h : collect_acsendant_layers w (w.strip_filename config.parent_layer_directory)
      (w.strip_parent_dir config.parent_layer_directory) = .ok chain) :
    spawn_and_wait w config St.init = leaf w config chain (path w) := by
  rw [spawn_and_wait_eq_outcome]
  simp only [outcome, h]

/-- The run in which step `k` is the first to fail and whose terminate guard, if it is
reached, comes back:
it ends with the exception of step `k`, after the calls of steps `1 .. k` followed by the
release calls pushed before `k`, last pushed first. -/
theorem first_failure_run (w : World) (config : nspawn_config) (k : Nat)
    (hk : 2 ≤ k) (hk2 : k ≤ 12)
    (hprev : ∀ j, 1 ≤ j → j < k → step_succeeds w config j = true)
    (hfail : step_fails w k = true)
    (hterm : 10 ≤ k → terminate_completes w = true) :
    ∃ chain,
      collect_acsendant_layers w (w.strip_filename config.parent_layer_directory)
        (w.strip_parent_dir config.parent_layer_directory) = .ok chain ∧
      (spawn_and_wait w config St.init).1 = .thrown (step_exn w config chain k) ∧
      calls (spawn_and_wait w config St.init).2.trace =
        forward_upto k ++ (pushed_before k).reverse := by
  obtain ⟨chain, hc⟩ := step_one w config (hprev 1 (by norm_num) (by omega))
  refine ⟨chain, hc, ?_⟩
  rw [outcome_resolved w config chain hc]
  interval_cases k
  · simp only [step_fails, decide_eq_true_eq] at hfail
    have hp : path w = .failed 2 := by simp [path, hfail]
    rw [hp]
    exact ⟨rfl, rfl⟩
  · simp only [step_fails, decide_eq_true_eq] at hfail
    have s2 := hprev 2 (by norm_num) (by norm_num)
    simp only [step_succeeds, decide_eq_true_eq, Bool.and_eq_true] at s2
    have hp : path w = .failed 3 := by simp [path, s2, hfail]
    rw [hp]
    exact ⟨rfl, rfl⟩
  · simp only [step_fails, decide_eq_true_eq] at hfail
    have s2 := hprev 2 (by norm_num) (by norm_num)
    have s3 := hprev 3 (by norm_num) (by norm_num)
    simp only [step_succeeds, decide_eq_true_eq, Bool.and_eq_true] at s2 s3
    have hp : path w = .failed 4 := by simp [path, s2, s3, hfail]
    rw [hp]
    exact ⟨rfl, rfl⟩
  · simp only [step_fails, decide_eq_true_eq] at hfail
    have s2 := hprev 2 (by norm_num) (by norm_num)
    have s3 := hprev 3 (by norm_num) (by norm_num)
    have s4 := hprev 4 (by norm_num) (by norm_num)
    simp only [step_succeeds, decide_eq_true_eq, Bool.and_eq_true] at s2 s3 s4
    have hp : path w = .failed 5 := by simp [path, s2, s3, s4, hfail]
    rw [hp]
    exact ⟨rfl, rfl⟩
  · simp [step_fails] at hfail
  · simp only [step_fails, decide_eq_true_eq] at hfail
    have s2 := hprev 2 (by norm_num) (by norm_num)
    have s3 := hprev 3 (by norm_num) (by norm_num)
    have s4 := hprev 4 (by norm_num) (by norm_num)
    have s5 := hprev 5 (by norm_num) (by norm_num)
    simp only [step_succeeds, decide_eq_true_eq, Bool.and_eq_true] at s2 s3 s4 s5
    have hp : path w = .failed 7 := by simp [path, s2, s3, s4, s5, hfail]
    rw [hp]
    exact ⟨rfl, rfl⟩
  · simp only [step_fails, decide_eq_true_eq] at hfail
    have s2 := hprev 2 (by norm_num) (by norm_num)
    have s3 := hprev 3 (by norm_num) (by norm_num)
    have s4 := hprev 4 (by norm_num) (by norm_num)
    have s5 := hprev 5 (by norm_num) (by norm_num)
    have s7 := hprev 7 (by norm_num) (by norm_num)
    simp only [step_succeeds, decide_eq_true_eq, Bool.and_eq_true] at s2 s3 s4 s5 s7
    have hp : path w = .failed 8 := by simp [path, s2, s3, s4, s5, s7, hfail]
    rw [hp]
    exact ⟨rfl, rfl⟩
  · simp only [step_fails, decide_eq_true_eq] at hfail
    have s2 := hprev 2 (by norm_num) (by norm_num)
    have s3 := hprev 3 (by norm_num) (by norm_num)
    have s4 := hprev 4 (by norm_num) (by norm_num)
    have s5 := hprev 5 (by norm_num) (by norm_num)
    have s7 := hprev 7 (by norm_num) (by norm_num)
    have s8 := hprev 8 (by norm_num) (by norm_num)
    simp only [step_succeeds, decide_eq_true_eq, Bool.and_eq_true] at s2 s3 s4 s5 s7 s8
    have hp : path w = .failed 9 := by simp [path, s2, s3, s4, s5, s7, s8, hfail]
    rw [hp]
    exact ⟨rfl, rfl⟩
  · simp only [step_fails, decide_eq_true_eq] at hfail
    have s2 := hprev 2 (by norm_num) (by norm_num)
    have s3 := hprev 3 (by norm_num) (by norm_num)
    have s4 := hprev 4 (by norm_num) (by norm_num)
    have s5 := hprev 5 (by norm_num) (by norm_num)
    have s7 := hprev 7 (by norm_num) (by norm_num)
    have s8 := hprev 8 (by norm_num) (by norm_num)
    have s9 := hprev 9 (by norm_num) (by norm_num)
    simp only [step_succeeds, decide_eq_true_eq, Bool.and_eq_true] at s2 s3 s4 s5 s7 s8 s9
    have hp : path w = .released 10 (ending w) := by simp [path, s2, s3, s4, s5, s7, s8, s9, hfail]
    rw [hp]
    rcases ending_of_completes w (hterm (by norm_num)) with he | he <;> rw [he] <;>
      exact ⟨rfl, rfl⟩
  · simp only [step_fails, decide_eq_true_eq] at hfail
    have s2 := hprev 2 (by norm_num) (by norm_num)
    have s3 := hprev 3 (by norm_num) (by norm_num)
    have s4 := hprev 4 (by norm_num) (by norm_num)
    have s5 := hprev 5 (by norm_num) (by norm_num)
    have s7 := hprev 7 (by norm_num) (by norm_num)
    have s8 := hprev 8 (by norm_num) (by norm_num)
    have s9 := hprev 9 (by norm_num) (by norm_num)
    have s10 := hprev 10 (by norm_num) (by norm_num)
    simp only [step_succeeds, decide_eq_true_eq, Bool.and_eq_true] at s2 s3 s4 s5 s7 s8 s9 s10
    have hp : path w = .released 11 (ending w) := by
        simp [path, s2, s3, s4, s5, s7, s8, s9, s10, hfail]
    rw [hp]
    rcases ending_of_completes w (hterm (by norm_num)) with he | he <;> rw [he] <;>
      exact ⟨rfl, rfl⟩
  · simp only [step_fails, decide_eq_true_eq] at hfail
    have s2 := hprev 2 (by norm_num) (by norm_num)
    have s3 := hprev 3 (by norm_num) (by norm_num)
    have s4 := hprev 4 (by norm_num) (by norm_num)
    have s5 := hprev 5 (by norm_num) (by norm_num)
    have s7 := hprev 7 (by norm_num) (by norm_num)
    have s8 := hprev 8 (by norm_num) (by norm_num)
    have s9 := hprev 9 (by norm_num) (by norm_num)
    have s10 := hprev 10 (by norm_num) (by norm_num)
    have s11 := hprev 11 (by norm_num) (by norm_num)
    simp only [step_succeeds, decide_eq_true_eq, Bool.and_eq_true] at s2 s3 s4 s5 s7 s8 s9 s10 s11
    have hp : path w = .released 12 (ending w) := by
        simp [path, s2, s3, s4, s5, s7, s8, s9, s10, s11, hfail]
    rw [hp]
    rcases ending_of_completes w (hterm (by norm_num)) with he | he <;> rw [he] <;>
      exact ⟨rfl, rfl⟩

/-- The entry point on a document that loads: the orchestrator runs, and its end is
turned into the returned value. -/
theorem hostcompute_nspawn_loaded (w : World) (text : String) (len : Int)
    (config : nspawn_config) (hlen : is_uint32_positive len = true)
    (hconf : w.load_config text len = .ok config) :
    hostcompute_nspawn w (some text) len = catch_all (spawn_and_wait w config St.init) := by
  simp [hostcompute_nspawn, hlen, hconf, lift_library, bind, M.bind, M.pure]

/-- The message of a failed forward step begins with the quoted name of its operation. -/
theorem step_exn_tag (w : World) (config : nspawn_config) (chain : List container_layer)
    (k : Nat) (hk : 2 ≤ k) (hk2 : k ≤ 12) (hfail : step_fails w k = true) :
    ∃ rest, step_exn w config chain k = .nspawn_exception (failed_tag k ++ rest) := by
  interval_cases k
  case «6» => simp [step_fails] at hfail
  all_goals
    simp only [step_exn, TRACEMSG, String.append_assoc, failed_tag]
    exact ⟨_, rfl⟩

/-- The steps of the phase table do not read the return codes of the release calls. -/
theorem step_succeeds_release (w : World) (config : nspawn_config) (r2 : Api → Nat)
    (hagree : ∀ a, a.is_release = false → r2 a = w.rc a) (j : Nat) (hj : j ≤ 12) :
    step_succeeds { w with rc := r2 } config j = step_succeeds w config j := by
  have hn : ∀ a kind, notified { w with rc := r2 } a kind = notified w a kind :=
    fun _ _ => rfl
  have hc := collect_congr w { w with rc := r2 } rfl rfl rfl
    (w.strip_filename config.parent_layer_directory)
    (w.strip_parent_dir config.parent_layer_directory)
  interval_cases j
  case «1» =>
    simp only [step_succeeds]
    rw [hc]
  all_goals simp [step_succeeds, hn, hagree, Api.is_release]

/-- Whether a step fails does not depend on the return codes of the release calls. -/
theorem step_fails_release (w : World) (r2 : Api → Nat)
    (hagree : ∀ a, a.is_release = false → r2 a = w.rc a) (k : Nat) (hk : k ≤ 12) :
    step_fails { w with rc := r2 } k = step_fails w k := by
  interval_cases k <;> simp [step_fails, hagree, Api.is_release]

/-- The exception of a step does not depend on the return codes of the release calls. -/
theorem step_exn_release (w : World) (config : nspawn_config) (chain : List container_layer)
    (r2 : Api → Nat) (hagree : ∀ a, a.is_release = false → r2 a = w.rc a) (k : Nat)
    (hk : k ≤ 12) :
    step_exn { w with rc := r2 } config chain k = step_exn w config chain k := by
  interval_cases k <;> simp [step_exn, run_layer, hagree, Api.is_release]

/-- A step that fails does not complete. -/
theorem fails_not_succeeds (w : World) (config : nspawn_config) (k : Nat)
    (hf : step_fails w k = true) : step_succeeds w config k = false := by
  by_cases hk : k ≤ 12
  · interval_cases k <;> simp [step_fails] at hf <;> simp [step_succeeds, Ne.symm hf]
  · have h13 : ∃ m, k = m + 13 := ⟨k - 13, by omega⟩
    obtain ⟨m, rfl⟩ := h13
    simp [step_fails] at hf

/-- The compute system gets started exactly when steps 1 to 9 complete. -/
theorem started_iff (w : World) (config : nspawn_config) :
    started w config = true ↔ ∀ j, 1 ≤ j → j ≤ 9 → step_succeeds w config j = true := by
  simp only [started, List.all_eq_true, List.mem_range]
  constructor
  · intro h j _ h9
    exact h j (by omega)
  · intro h j hj
    by_cases h0 : j = 0
    · subst h0
      rfl
    · exact h j (by omega) (by omega)

/-- Whether a notification is delivered depends on the types of the notifications only. -/
theorem notified_kinds (w : World) (notes : Api → List Notification)
    (hkinds : ∀ a, (notes a).map (fun n => n.notificationType) =
      (w.notifications a).map (fun n => n.notificationType))
    (a : Api) (kind : notification_type) :
    notified { w with notifications := notes } a kind = notified w a kind := by
  have h1 : ∀ ns : List Notification,
      ns.map (fun n => w.to_notification_type n.notificationType) =
        (ns.map (fun n => n.notificationType)).map w.to_notification_type := by
    intro ns
    simp [List.map_map, Function.comp_def]
  simp only [notified, kinds, h1, hkinds]

/-- The run depends on the notifications through their types only. -/
theorem spawn_and_wait_kinds (w : World) (notes : Api → List Notification)
    (hkinds : ∀ a, (notes a).map (fun n => n.notificationType) =
      (w.notifications a).map (fun n => n.notificationType))
    (config : nspawn_config) :
    spawn_and_wait { w with notifications := notes } config St.init =
      spawn_and_wait w config St.init := by
  have hn := notified_kinds w notes hkinds
  have hp : path { w with notifications := notes } = path w := by
    unfold path ending
    simp only [hn]
  have hl : ∀ chain p, leaf { w with notifications := notes } config chain p =
      leaf w config chain p := by
    intro chain p
    cases p <;> rfl
  have hc := collect_congr w { w with notifications := notes } rfl rfl rfl
    (w.strip_filename config.parent_layer_directory)
    (w.strip_parent_dir config.parent_layer_directory)
  rw [spawn_and_wait_eq_outcome, spawn_and_wait_eq_outcome]
  unfold outcome
  rw [hp]
  simp only [hl]
  exact congrArg (fun r => match r with
    | .error e => (Res.thrown e, St.init)
    | .ok chain => leaf w config chain (path w)) hc

/-- The loop of `collect_acsendant_layers` fails with exceptions of the helper library
only. -/
theorem collect_loop_error (w : World) (json_file : String) (js : List json)
    (res : List container_layer) (e : Exn)
    (h : collect_loop w json_file js res = .error e) : ∃ m, e = .library m := by
  induction js generalizing res with
  | nil => simp [collect_loop] at h
  | cons el rest ih =>
    simp only [collect_loop] at h
    cases el with
    | string s =>
      simp only [json.as_string_or_throw] at h
      exact ih _ h
    | _ =>
      simp only [json.as_string_or_throw, Except.error.injEq] at h
      exact ⟨_, h.symm⟩

/-- The function `collect_acsendant_layers` fails with exceptions of the helper library
only. -/
theorem collect_error (w : World) (base_path parent_layer_name : String) (e : Exn)
    (h : collect_acsendant_layers w base_path parent_layer_name = .error e) :
    ∃ m, e = .library m := by
  simp only [collect_acsendant_layers] at h
  cases hl : w.load_json (base_path ++ "\\" ++ parent_layer_name ++ "\\layerchain.json") with
  | error m =>
    rw [hl] at h
    simp only [Except.error.injEq] at h
    exact ⟨m, h.symm⟩
  | ok js =>
    rw [hl] at h
    cases js with
    | array xs =>
      simp only [json.as_array_or_throw] at h
      exact collect_loop_error w _ xs _ e h
    | _ =>
      simp only [json.as_array_or_throw, Except.error.injEq] at h
      exact ⟨_, h.symm⟩

/-- The `catch` of the entry point changes neither the trace nor the latch. -/
theorem catch_all_state (r : Res Unit × St) : (catch_all r).2 = r.2 := by
  rcases r with ⟨r1, s⟩
  cases r1 <;> rfl

/-- The `catch` of the entry point turns an exception into its decorated text. -/
theorem catch_all_thrown (r : Res Unit × St) (e : Exn) (h : r.1 = .thrown e) :
    (catch_all r).1 =
      .ok (some (TRACEMSG "hostcompute_nspawn" (e.what ++ "\nException raised"))) := by
  rcases r with ⟨r1, s⟩
  simp only at h
  subst h
  rfl

/-! ## Claims -/

/-- C5: for every base directory `B`, parent layer name `P` and manifest that is a list
`[d1, ..., dn]` of path strings, `collect_acsendant_layers` returns a chain of length
`n + 1` that starts with the layer `(B, P)` and continues with each `di` split into
(directory of `di`, file name of `di`), in the order of the manifest. -/
theorem collect_acsendant_layers_chain (w : World) (B P : String) (ds : List String)
    (hmanifest : w.load_json (B ++ "\\" ++ P ++ "\\layerchain.json") =
      .ok (.array (ds.map json.string))) :
    collect_acsendant_layers w B P =
      .ok (⟨B, P⟩ :: ds.map (fun d => ⟨w.strip_filename d, w.strip_parent_dir d⟩)) ∧
    (⟨B, P⟩ :: ds.map (fun d => (⟨w.strip_filename d, w.strip_parent_dir d⟩ :
      container_layer))).length = ds.length + 1 := by
  constructor
  · simp only [collect_acsendant_layers, hmanifest, json.as_array_or_throw,
      collect_loop_strings]
    simp
  · simp

/-- Witness of C5: the manifest `[d1, d2]` under the parent `parent` gives the order
`[parent, d1, d2]`. -/
theorem collect_acsendant_layers_chain_witness :
    happy.load_json ("C:\\layers\\" ++ "\\" ++ "parent" ++ "\\layerchain.json") =
      .ok (.array (["C:\\layers\\d1", "C:\\layers\\d2"].map json.string)) ∧
    collect_acsendant_layers happy "C:\\layers\\" "parent" =
      .ok [⟨"C:\\layers\\", "parent"⟩, ⟨"C:\\layers\\", "d1"⟩, ⟨"C:\\layers\\", "d2"⟩] :=
  ⟨rfl, (collect_acsendant_layers_chain happy "C:\\layers\\" "parent"
    ["C:\\layers\\d1", "C:\\layers\\d2"] rfl).1⟩

/-- Counterexample to C1 as stated: step 10 is the first step to fail, the terminate
guard calls `HcsTerminateComputeSystem`, which answers "pending", and its wait is never
answered; the run blocks there, so of the four release calls pushed before step 10 only
the terminate call executes. -/
theorem unwind_blocks_in_terminate :
    step_fails unanswered_terminate 10 = true ∧
    (List.range 10).all (fun j => step_succeeds unanswered_terminate sample_config j) = true ∧
    (spawn_and_wait unanswered_terminate sample_config St.init).1 = .blocked ∧
    rollback_calls (spawn_and_wait unanswered_terminate sample_config St.init).2.trace =
      [.HcsTerminateComputeSystem] ∧
    (pushed_before 10).reverse =
      [.HcsTerminateComputeSystem, .UnprepareLayer, .DeactivateLayer, .DestroyLayer] ∧
    rollback_calls (spawn_and_wait unanswered_terminate sample_config St.init).2.trace ≠
      (pushed_before 10).reverse := by
  refine ⟨by decide, by decide, by decide, by decide, by decide, by decide⟩

/-- C1, as amended: in every run in which forward step `k` (`2 ≤ k ≤ 12`) is the first step
to fail and in which the terminate guard, when it has been pushed (`10 ≤ k`), comes back
(if `HcsTerminateComputeSystem` answers "pending", the `system_exit` notification is
delivered), the run ends with an exception, the release calls that execute are exactly
those pushed by the steps before `k`, in reverse order of pushing and after the forward
calls, each once, and none that belongs to step `k` or to a later step executes. -/
theorem rollback_on_first_failure (w : World) (config : nspawn_config) (k : Nat)
    (hk : 2 ≤ k) (hk2 : k ≤ 12)
    (hprev : ∀ j, 1 ≤ j → j < k → step_succeeds w config j = true)
    (hfail : step_fails w k = true)
    (hterm : 10 ≤ k → terminate_completes w = true) :
    (∃ e, (spawn_and_wait w config St.init).1 = .thrown e) ∧
    rollback_calls (spawn_and_wait w config St.init).2.trace = (pushed_before k).reverse ∧
    calls (spawn_and_wait w config St.init).2.trace =
      forward_upto k ++ (pushed_before k).reverse ∧
    (rollback_calls (spawn_and_wait w config St.init).2.trace).Nodup ∧
    (pushed_from k).all
      (fun a => !(rollback_calls (spawn_and_wait w config St.init).2.trace).contains a) =
      true := by
  obtain ⟨chain, _, hr, hcalls⟩ := first_failure_run w config k hk hk2 hprev hfail hterm
  refine ⟨⟨_, hr⟩, ?_, hcalls, ?_, ?_⟩
  all_goals simp only [rollback_calls, hcalls]
  all_goals interval_cases k <;> decide

/-- Witness of C1 as amended: only `HcsCreateProcess` (step 11) fails; terminate, unprepare,
deactivate and destroy run, in this order. -/
theorem rollback_on_first_failure_witness :
    step_fails process_fails 11 = true ∧
    rollback_calls (spawn_and_wait process_fails sample_config St.init).2.trace =
      [.HcsTerminateComputeSystem, .UnprepareLayer, .DeactivateLayer, .DestroyLayer] :=
  ⟨by decide,
    (rollback_on_first_failure process_fails sample_config 11 (by decide) (by decide)
      (by intro j h1 h2; interval_cases j <;> decide) (by decide) (fun _ => by decide)).2.1⟩

/-- Counterexample to C2 as stated: two runs that differ only in the return code of one
release call and do not run the same release calls. Step 10 fails in both and the runtime
never delivers `system_exit`. With the release codes that mean success
(`HcsTerminateComputeSystem` answers "pending") the unwind blocks in the terminate guard:
only the terminate call runs and the entry point returns nothing. With the failure code 5
for `HcsTerminateComputeSystem` all four release calls run and the entry point returns a
message. -/
theorem release_code_changes_blocked_unwind :
    (∀ a, a.is_release = false → terminate_refused a = unanswered_terminate.rc a) ∧
    step_fails unanswered_terminate 10 = true ∧
    unanswered_terminate.rc .HcsTerminateComputeSystem = HcsErrors.operation_pending ∧
    unanswered_terminate.rc .UnprepareLayer = 0 ∧
    unanswered_terminate.rc .DeactivateLayer = 0 ∧
    unanswered_terminate.rc .DestroyLayer = 0 ∧
    (hostcompute_nspawn unanswered_terminate (some "config") 6).1 = .blocked ∧
    rollback_calls (hostcompute_nspawn unanswered_terminate (some "config") 6).2.trace =
      [.HcsTerminateComputeSystem] ∧
    rollback_calls (hostcompute_nspawn { unanswered_terminate with rc := terminate_refused }
      (some "config") 6).2.trace =
      [.HcsTerminateComputeSystem, .UnprepareLayer, .DeactivateLayer, .DestroyLayer] ∧
    (hostcompute_nspawn { unanswered_terminate with rc := terminate_refused }
      (some "config") 6).1 =
      .ok (some ("'HcsEnumerateComputeSystems' failed, error: [0x5]" ++
        "\n    at hcs_enumerate_compute_systems" ++ "\nException raised" ++
        "\n    at hostcompute_nspawn")) := by
  refine ⟨by intro a; cases a <;> decide, by decide, by decide, by decide, by decide,
    by decide, by decide, by decide, by decide, by decide⟩

/-- C2, as amended: failures of the release calls change neither the unwind nor the
returned error, in the runs in which the terminate guard, when it is reached (`10 ≤ k`),
has its wait answered by `system_exit`. Take any failure point `k`, a world, and any other
return codes of the release calls (`UnprepareLayer`, `DeactivateLayer`, `DestroyLayer`,
`HcsTerminateComputeSystem`). With the other codes the entry point issues the same calls
in the same order, its release calls are those pushed before `k`, last pushed first, and
it returns the same message: the decorated text of the exception of forward step `k`,
which begins with the quoted name of the operation of that step, and nothing of a release
call. -/
theorem release_codes_do_not_change_unwind (w : World) (text : String) (len : Int)
    (config : nspawn_config) (codes : Api → Nat) (k : Nat)
    (hlen : is_uint32_positive len = true)
    (hconf : w.load_config text len = .ok config)
    (hagree : ∀ a, a.is_release = false → codes a = w.rc a)
    (hk : 2 ≤ k) (hk2 : k ≤ 12)
    (hprev : ∀ j, 1 ≤ j → j < k → step_succeeds w config j = true)
    (hfail : step_fails w k = true)
    (hexit : 10 ≤ k → notified w .HcsTerminateComputeSystem .system_exit = true) :
    calls (hostcompute_nspawn { w with rc := codes } (some text) len).2.trace =
      calls (hostcompute_nspawn w (some text) len).2.trace ∧
    calls (hostcompute_nspawn { w with rc := codes } (some text) len).2.trace =
      forward_upto k ++ (pushed_before k).reverse ∧
    rollback_calls (hostcompute_nspawn { w with rc := codes } (some text) len).2.trace =
      (pushed_before k).reverse ∧
    (hostcompute_nspawn { w with rc := codes } (some text) len).1 =
      (hostcompute_nspawn w (some text) len).1 ∧
    (∃ chain, (hostcompute_nspawn { w with rc := codes } (some text) len).1 =
      .ok (some (TRACEMSG "hostcompute_nspawn"
        ((step_exn w config chain k).what ++ "\nException raised")))) ∧
    (∃ rest, (hostcompute_nspawn { w with rc := codes } (some text) len).1 =
      .ok (some (failed_tag k ++ rest))) ∧
    ∃ rest, (spawn_and_wait { w with rc := codes } config St.init).1 =
      .thrown (.nspawn_exception (failed_tag k ++ rest)) := by
  have hterm : 10 ≤ k → terminate_completes w = true := by
    intro h10
    simp [terminate_completes, hexit h10]
  have hterm2 : 10 ≤ k → terminate_completes { w with rc := codes } = true := by
    intro h10
    have hexit2 : notified { w with rc := codes } .HcsTerminateComputeSystem .system_exit =
        true := hexit h10
    simp only [terminate_completes, hexit2, implies_true, decide_True]
  have hprev2 : ∀ j, 1 ≤ j → j < k →
      step_succeeds { w with rc := codes } config j = true := by
    intro j h1 h2
    rw [step_succeeds_release w config codes hagree j (by omega)]
    exact hprev j h1 h2
  have hfail2 : step_fails { w with rc := codes } k = true := by
    rw [step_fails_release w codes hagree k hk2]
    exact hfail
  obtain ⟨chain, hc, hr, hcalls⟩ := first_failure_run w config k hk hk2 hprev hfail hterm
  obtain ⟨chain2, hc2, hr2, hcalls2⟩ :=
    first_failure_run { w with rc := codes } config k hk hk2 hprev2 hfail2 hterm2
  have hcc := collect_congr w { w with rc := codes } rfl rfl rfl
    (w.strip_filename config.parent_layer_directory)
    (w.strip_parent_dir config.parent_layer_directory)
  have hchain : chain2 = chain := by
    have h3 : (Except.ok chain2 : Except Exn (List container_layer)) = .ok chain := by
      rw [← hc2, ← hc]
      exact hcc
    injection h3
  subst hchain
  have hex := step_exn_release w config chain2 codes hagree k hk2
  rw [hex] at hr2
  obtain ⟨rest, htag⟩ := step_exn_tag w config chain2 k hk hk2 hfail
  have hconf2 : ({ w with rc := codes } : World).load_config text len = .ok config := hconf
  have hrun := hostcompute_nspawn_loaded w text len config hlen hconf
  have hrun2 := hostcompute_nspawn_loaded { w with rc := codes } text len config hlen hconf2
  have hres := catch_all_thrown _ _ hr
  have hres2 := catch_all_thrown _ _ hr2
  have htr : (hostcompute_nspawn w (some text) len).2.trace =
      (spawn_and_wait w config St.init).2.trace := by
    rw [hrun, catch_all_state]
  have htr2 : (hostcompute_nspawn { w with rc := codes } (some text) len).2.trace =
      (spawn_and_wait { w with rc := codes } config St.init).2.trace := by
    rw [hrun2, catch_all_state]
  have hmsg : (hostcompute_nspawn w (some text) len).1 =
      .ok (some (TRACEMSG "hostcompute_nspawn"
        ((step_exn w config chain2 k).what ++ "\nException raised"))) := by
    rw [hrun, hres]
  have hmsg2 : (hostcompute_nspawn { w with rc := codes } (some text) len).1 =
      .ok (some (TRACEMSG "hostcompute_nspawn"
        ((step_exn w config chain2 k).what ++ "\nException raised"))) := by
    rw [hrun2, hres2]
  refine ⟨by rw [htr, htr2, hcalls, hcalls2], by rw [htr2, hcalls2], ?_, by rw [hmsg, hmsg2],
    ⟨chain2, hmsg2⟩, ?_, ⟨rest, by rw [hr2, htag]⟩⟩
  · simp only [rollback_calls, htr2, hcalls2]
    interval_cases k <;> decide
  · refine ⟨rest ++ ("\nException raised" ++ ("\n    at " ++ "hostcompute_nspawn")), ?_⟩
    rw [hmsg2, htag]
    simp only [TRACEMSG, Exn.what, String.append_assoc]

/-- Witness of C2 as amended, scenario C: create and activate succeed and `PrepareLayer`
fails with code 5; with `DeactivateLayer` answering 7 and `DestroyLayer` answering 3, the
calls after the failure are `DeactivateLayer` then `DestroyLayer`, and the entry point
returns the message of the `PrepareLayer` failure and nothing else. -/
theorem release_codes_do_not_change_unwind_witness :
    scenario_c_release_codes .DeactivateLayer = 7 ∧
    scenario_c_release_codes .DestroyLayer = 3 ∧
    step_fails scenario_c 4 = true ∧
    calls (hostcompute_nspawn { scenario_c with rc := scenario_c_release_codes }
      (some "config") 6).2.trace =
      [.CreateSandboxLayer, .ActivateLayer, .PrepareLayer, .DeactivateLayer, .DestroyLayer] ∧
    rollback_calls (hostcompute_nspawn { scenario_c with rc := scenario_c_release_codes }
      (some "config") 6).2.trace = [.DeactivateLayer, .DestroyLayer] ∧
    (hostcompute_nspawn { scenario_c with rc := scenario_c_release_codes }
      (some "config") 6).1 = (hostcompute_nspawn scenario_c (some "config") 6).1 ∧
    (hostcompute_nspawn { scenario_c with rc := scenario_c_release_codes }
      (some "config") 6).1 =
      .ok (some ("'PrepareLayer' failed, layer_name: [nspawn_20160101_" ++
        "aaaaaaaaaaaaaaaaaaaaaaaaaa], error: [0x5]" ++ "\n    at hcs_prepare_layer" ++
        "\nException raised" ++ "\n    at hostcompute_nspawn")) :=
  have h := release_codes_do_not_change_unwind scenario_c "config" 6 sample_config
    scenario_c_release_codes 4 (by decide) rfl (by intro a; cases a <;> decide) (by decide)
    (by decide) (by intro j h1 h2; interval_cases j <;> decide) (by decide) (by decide)
  ⟨by decide, by decide, by decide, by decide, h.2.2.1, h.2.2.2.1, by decide⟩

/-- C3: when the configuration loads, the ascendant chain is resolved and
`CreateSandboxLayer` answers a non-zero code `E1`, the only action of the run is the call
of `CreateSandboxLayer` (no release call, no later driver or runtime call, no latch
operation), and the entry point returns a message that begins with the quoted name of the
failing operation and embeds the string form of `E1`. -/
theorem create_layer_failure (w : World) (text : String) (len : Int)
    (config : nspawn_config) (E1 : Nat)
    (hlen : is_uint32_positive len = true)
    (hconf : w.load_config text len = .ok config)
    (hchain : step_succeeds w config 1 = true)
    (hcode : w.rc .CreateSandboxLayer = E1) (hE1 : E1 ≠ 0) :
    (hostcompute_nspawn w (some text) len).2.trace =
      [.call .CreateSandboxLayer (.layer (run_layer w config).name)] ∧
    rollback_calls (hostcompute_nspawn w (some text) len).2.trace = [] ∧
    ∃ b c, (hostcompute_nspawn w (some text) len).1 =
      .ok (some ("'CreateSandboxLayer' failed," ++ b ++ w.errcode_to_string E1 ++ c)) := by
  obtain ⟨chain, hc⟩ := step_one w config hchain
  have hne : ¬ 0 = w.rc .CreateSandboxLayer := by
    rw [hcode]
    exact fun h => hE1 h.symm
  have hp : path w = .failed 2 := by simp [path, hne]
  rw [hostcompute_nspawn_loaded w text len config hlen hconf,
    outcome_resolved w config chain hc, hp]
  refine ⟨rfl, rfl, ?_⟩
  refine ⟨" layer_name: [" ++ (run_layer w config).name ++ "]," ++ " parent_layer_name: [" ++
    w.strip_parent_dir config.parent_layer_directory ++ "]," ++ " error: [",
    "]" ++ "\n    at " ++ "hcs_create_layer" ++ "\nException raised" ++ "\n    at " ++
    "hostcompute_nspawn", ?_⟩
  simp only [leaf, catch_all, step_exn, Exn.what, TRACEMSG, String.append_assoc, hcode]

/-- Witness of C3, scenario B: `CreateSandboxLayer` answers 5, whose string form is
`0x5`. -/
theorem create_layer_failure_witness :
    scenario_b.rc .CreateSandboxLayer = 5 ∧
    calls (hostcompute_nspawn scenario_b (some "config") 6).2.trace = [.CreateSandboxLayer] ∧
    ∃ b c, (hostcompute_nspawn scenario_b (some "config") 6).1 =
      .ok (some ("'CreateSandboxLayer' failed," ++ b ++ "0x5" ++ c)) :=
  have h := create_layer_failure scenario_b "config" 6 sample_config 5 (by decide) rfl
    (by decide) (by decide) (by decide)
  ⟨by decide, by rw [h.1]; rfl, h.2.2⟩

/-- C4: on the happy path (the configuration loads, every step of the phase table
completes, the terminate guard comes back) the external calls are, in this order, create
layer, activate, prepare, get mount path, create compute system, register system
callback, start, enumerate, create process, register process callback, then the release
calls terminate compute system, unprepare, deactivate, destroy, each once, and the entry
point returns the null pointer. -/
theorem happy_path (w : World) (text : String) (len : Int) (config : nspawn_config)
    (hlen : is_uint32_positive len = true)
    (hconf : w.load_config text len = .ok config)
    (hsteps : ∀ j, 1 ≤ j → j ≤ 12 → step_succeeds w config j = true)
    (hterm : terminate_completes w = true) :
    (hostcompute_nspawn w (some text) len).1 = .ok none ∧
    calls (hostcompute_nspawn w (some text) len).2.trace =
      [.CreateSandboxLayer, .ActivateLayer, .PrepareLayer, .GetLayerMountPath,
        .HcsCreateComputeSystem, .HcsRegisterComputeSystemCallback, .HcsStartComputeSystem,
        .HcsEnumerateComputeSystems, .HcsCreateProcess, .HcsRegisterProcessCallback,
        .HcsTerminateComputeSystem, .UnprepareLayer, .DeactivateLayer, .DestroyLayer] ∧
    forward_calls (hostcompute_nspawn w (some text) len).2.trace = forward_upto 12 ∧
    rollback_calls (hostcompute_nspawn w (some text) len).2.trace =
      (pushed_before 13).reverse := by
  obtain ⟨chain, hc⟩ := step_one w config (hsteps 1 (by norm_num) (by norm_num))
  have s2 := hsteps 2 (by norm_num) (by norm_num)
  have s3 := hsteps 3 (by norm_num) (by norm_num)
  have s4 := hsteps 4 (by norm_num) (by norm_num)
  have s5 := hsteps 5 (by norm_num) (by norm_num)
  have s7 := hsteps 7 (by norm_num) (by norm_num)
  have s8 := hsteps 8 (by norm_num) (by norm_num)
  have s9 := hsteps 9 (by norm_num) (by norm_num)
  have s10 := hsteps 10 (by norm_num) (by norm_num)
  have s11 := hsteps 11 (by norm_num) (by norm_num)
  have s12 := hsteps 12 (by norm_num) (by norm_num)
  simp only [step_succeeds, decide_eq_true_eq, Bool.and_eq_true]
    at s2 s3 s4 s5 s7 s8 s9 s10 s11 s12
  have hp : path w = .released 13 (ending w) := by
    simp [path, s2, s3, s4, s5, s7, s8, s9, s10, s11, s12]
  rw [hostcompute_nspawn_loaded w text len config hlen hconf,
    outcome_resolved w config chain hc, hp]
  rcases ending_of_completes w hterm with he | he <;> rw [he] <;>
    exact ⟨rfl, rfl, rfl, rfl⟩

/-- Witness of C4: the world `happy`. -/
theorem happy_path_witness :
    is_uint32_positive 6 = true ∧
    (hostcompute_nspawn happy (some "config") 6).1 = .ok none ∧
    rollback_calls (hostcompute_nspawn happy (some "config") 6).2.trace =
      [.HcsTerminateComputeSystem, .UnprepareLayer, .DeactivateLayer, .DestroyLayer] :=
  have h := happy_path happy "config" 6 sample_config (by decide) rfl
    (by intro j h1 h2; interval_cases j <;> decide) (by decide)
  ⟨by decide, h.1, h.2.2.2⟩

/-- Counterexample to C7 as stated: when only `HcsEnumerateComputeSystems` fails, the
entry point returns an error message and `HcsCreateProcess` is never called. -/
theorem enumerate_failure_is_fatal :
    (∀ a, a ≠ .HcsEnumerateComputeSystems → enumerate_fails.rc a = happy.rc a) ∧
    (hostcompute_nspawn happy (some "config") 6).1 = .ok none ∧
    (hostcompute_nspawn enumerate_fails (some "config") 6).1 ≠ .ok none ∧
    Api.HcsCreateProcess ∉
      calls (hostcompute_nspawn enumerate_fails (some "config") 6).2.trace ∧
    Api.HcsRegisterProcessCallback ∉
      calls (hostcompute_nspawn enumerate_fails (some "config") 6).2.trace := by
  refine ⟨by intro a; cases a <;> decide, by decide, by decide, by decide, by decide⟩

/-- C7, as amended: a failure of `HcsEnumerateComputeSystems` is fatal. When every earlier
step completes and the terminate guard comes back, neither `HcsCreateProcess` nor
`HcsRegisterProcessCallback` is called, the release calls terminate, unprepare, deactivate
and destroy run in this order, and the entry point returns a message that begins with
`'HcsEnumerateComputeSystems' failed,`. -/
theorem enumerate_failure_unwinds (w : World) (text : String) (len : Int)
    (config : nspawn_config)
    (hlen : is_uint32_positive len = true)
    (hconf : w.load_config text len = .ok config)
    (hprev : ∀ j, 1 ≤ j → j < 10 → step_succeeds w config j = true)
    (hfail : w.rc .HcsEnumerateComputeSystems ≠ 0)
    (hterm : terminate_completes w = true) :
    Api.HcsCreateProcess ∉ calls (hostcompute_nspawn w (some text) len).2.trace ∧
    Api.HcsRegisterProcessCallback ∉ calls (hostcompute_nspawn w (some text) len).2.trace ∧
    calls (hostcompute_nspawn w (some text) len).2.trace =
      [.CreateSandboxLayer, .ActivateLayer, .PrepareLayer, .GetLayerMountPath,
        .HcsCreateComputeSystem, .HcsRegisterComputeSystemCallback, .HcsStartComputeSystem,
        .HcsEnumerateComputeSystems,
        .HcsTerminateComputeSystem, .UnprepareLayer, .DeactivateLayer, .DestroyLayer] ∧
    ∃ rest, (hostcompute_nspawn w (some text) len).1 =
      .ok (some ("'HcsEnumerateComputeSystems' failed," ++ rest)) := by
  have hf : step_fails w 10 = true := by
    simp only [step_fails, decide_eq_true_eq]
    exact fun h => hfail h.symm
  obtain ⟨chain, hc, hr, hcalls⟩ :=
    first_failure_run w config 10 (by norm_num) (by norm_num) hprev hf (fun _ => hterm)
  have hrun : hostcompute_nspawn w (some text) len =
      catch_all (spawn_and_wait w config St.init) :=
    hostcompute_nspawn_loaded w text len config hlen hconf
  have htrace : (catch_all (spawn_and_wait w config St.init)).2.trace =
      (spawn_and_wait w config St.init).2.trace := by
    generalize spawn_and_wait w config St.init = r
    rcases r with ⟨r1, s⟩
    cases r1 <;> rfl
  have hres : (catch_all (spawn_and_wait w config St.init)).1 =
      .ok (some (TRACEMSG "hostcompute_nspawn"
        ((step_exn w config chain 10).what ++ "\nException raised"))) := by
    generalize spawn_and_wait w config St.init = r at hr
    rcases r with ⟨r1, s⟩
    simp only at hr
    subst hr
    rfl
  rw [hrun, htrace, hcalls, hres]
  refine ⟨by decide, by decide, by decide, ?_⟩
  refine ⟨" error: [" ++ w.errcode_to_string (w.rc .HcsEnumerateComputeSystems) ++ "]" ++
    "\n    at " ++ "hcs_enumerate_compute_systems" ++ "\nException raised" ++ "\n    at " ++
    "hostcompute_nspawn", ?_⟩
  simp only [step_exn, Exn.what, TRACEMSG, String.append_assoc]

/-- Witness of C7 as amended: the world in which only `HcsEnumerateComputeSystems` fails. -/
theorem enumerate_failure_unwinds_witness :
    enumerate_fails.rc .HcsEnumerateComputeSystems ≠ 0 ∧
    Api.HcsCreateProcess ∉
      calls (hostcompute_nspawn enumerate_fails (some "config") 6).2.trace ∧
    ∃ rest, (hostcompute_nspawn enumerate_fails (some "config") 6).1 =
      .ok (some ("'HcsEnumerateComputeSystems' failed," ++ rest)) :=
  have h := enumerate_failure_unwinds enumerate_fails "config" 6 sample_config (by decide) rfl
    (by intro j h1 h2; interval_cases j <;> decide) (by decide) (by decide)
  ⟨by decide, h.1, h.2.2.2⟩

/-- C9: the usage error of the latch is unreachable. In every run, whatever the return
codes and the notifications, the operations on `cs_latch` follow the discipline (each
`lock` is followed by exactly one `await` or `cancel` before the next `lock`, the `lock`
of the terminate guard included), the run is never ended by an exception that escapes a
guard, and it never ends with the usage error of the latch. -/
theorem latch_usage_error_unreachable (w : World) (config : nspawn_config) :
    latch_protocol false (spawn_and_wait w config St.init).2.trace = true ∧
    (spawn_and_wait w config St.init).1 ≠ .aborted ∧
    (spawn_and_wait w config St.init).1 ≠ .thrown .UsageError := by
  rw [spawn_and_wait_eq_outcome]
  unfold outcome
  cases hc : collect_acsendant_layers w (w.strip_filename config.parent_layer_directory)
      (w.strip_parent_dir config.parent_layer_directory) with
  | error e =>
    obtain ⟨m, rfl⟩ := collect_error w _ _ e hc
    exact ⟨rfl, by simp, by simp⟩
  | ok chain =>
    apply path_cases w config
      (fun p => latch_protocol false (leaf w config chain p).2.trace = true ∧
        (leaf w config chain p).1 ≠ .aborted ∧
        (leaf w config chain p).1 ≠ .thrown .UsageError)
    · intro k h2 h9 _ hf
      interval_cases k <;> simp [step_fails] at hf <;>
        simp [leaf, failed_state, latch_protocol, to_create, unwind_layers, step_exn]
    · intro k h8 h12 _ _ _
      interval_cases k <;>
        simp [leaf, waiting_state, latch_protocol, to_create, to_started, after_started]
    · intro k h10 h13 _ hf
      cases ending w <;> interval_cases k <;>
        simp [leaf, released_end, latch_protocol, to_create, to_started, after_started,
          unwind_layers, step_exn]

/-- Counterexample to C6 as stated: `HcsCreateComputeSystem` succeeds and yields the handle
7, `HcsRegisterComputeSystemCallback` then fails, and `HcsTerminateComputeSystem` is never
invoked before `spawn_and_wait` fails. -/
theorem terminate_missing_after_create :
    register_fails.rc .HcsCreateComputeSystem = HcsErrors.operation_pending ∧
    register_fails.computeSystem = 7 ∧
    Api.HcsCreateComputeSystem ∈
      calls (spawn_and_wait register_fails sample_config St.init).2.trace ∧
    (∃ e, (spawn_and_wait register_fails sample_config St.init).1 = .thrown e) ∧
    ((spawn_and_wait register_fails sample_config St.init).2.trace).count
      (.call .HcsTerminateComputeSystem (.handle 7)) = 0 ∧
    (calls (spawn_and_wait register_fails sample_config St.init).2.trace).count
      .HcsTerminateComputeSystem = 0 := by
  refine ⟨by decide, by decide, by decide, ⟨_, rfl⟩, by decide, by decide⟩

set_option maxHeartbeats 1600000 in
/-- C6, as amended: the terminate call is paired with the start of the compute system, not
with its creation. In every run, `HcsTerminateComputeSystem` is invoked on the handle
yielded by `HcsCreateComputeSystem` exactly once when the compute system gets started
(every step up to and including the start completes) and the run does not block in the
wait for the exit of the process, whichever later step fails or none does, and not at all
otherwise; it is never invoked twice. -/
theorem terminate_paired_with_start (w : World) (config : nspawn_config) :
    ((spawn_and_wait w config St.init).2.trace).count
      (.call .HcsTerminateComputeSystem (.handle w.computeSystem)) =
      (if (started w config && !waits_for_process_exit w config) = true then 1 else 0) ∧
    (calls (spawn_and_wait w config St.init).2.trace).count .HcsTerminateComputeSystem =
      (if (started w config && !waits_for_process_exit w config) = true then 1 else 0) := by
  rw [spawn_and_wait_eq_outcome]
  unfold outcome
  cases hc : collect_acsendant_layers w (w.strip_filename config.parent_layer_directory)
      (w.strip_parent_dir config.parent_layer_directory) with
  | error e =>
    have hst : started w config = false := by
      rw [Bool.eq_false_iff]
      intro h
      have h1 := (started_iff w config).1 h 1 (by norm_num) (by norm_num)
      simp [step_succeeds, hc] at h1
    simp [hst, St.init, calls]
  | ok chain =>
    have h1 : step_succeeds w config 1 = true := by simp [step_succeeds, hc]
    have hstart : ∀ k, 10 ≤ k →
        (∀ j, 2 ≤ j → j < k → step_succeeds w config j = true) →
        started w config = true := by
      intro k hk hs
      rw [started_iff]
      intro j hj1 hj9
      by_cases hj : j = 1
      · subst hj
        exact h1
      · exact hs j (by omega) (by omega)
    apply path_cases w config
      (fun p => ((leaf w config chain p).2.trace).count
          (.call .HcsTerminateComputeSystem (.handle w.computeSystem)) =
          (if (started w config && !waits_for_process_exit w config) = true then 1 else 0) ∧
        (calls (leaf w config chain p).2.trace).count .HcsTerminateComputeSystem =
          (if (started w config && !waits_for_process_exit w config) = true then 1 else 0))
    · intro k h2 h9 _ hf
      have hst : started w config = false := by
        rw [Bool.eq_false_iff]
        intro h
        have hk := (started_iff w config).1 h k (by omega) h9
        rw [fails_not_succeeds w config k hf] at hk
        exact absurd hk (by simp)
      interval_cases k <;>
        simp [hst, leaf, failed_state, to_create, unwind_layers, calls, List.count_cons]
    · intro k h8 h12 hs hk hf
      by_cases h9 : k ≤ 9
      · have hst : started w config = false := by
          rw [Bool.eq_false_iff]
          intro h
          have hk2 := (started_iff w config).1 h k (by omega) h9
          rw [hk] at hk2
          exact absurd hk2 (by simp)
        interval_cases k <;>
          simp [hst, leaf, waiting_state, to_create, to_started, calls, List.count_cons]
      · have hst := hstart k (by omega) hs
        have hk12 : k = 12 := by
          by_contra hne
          have hk10 : k = 10 ∨ k = 11 := by omega
          rcases hk10 with rfl | rfl <;> simp [step_succeeds] at hk <;>
            simp [step_fails] at hf <;> exact hk hf.symm
        subst hk12
        have hw : waits_for_process_exit w config = true := by
          simp only [waits_for_process_exit, hk, hf,
            hs 10 (by norm_num) (by norm_num), hs 11 (by norm_num) (by norm_num)]
          rfl
        simp [hst, hw, leaf, waiting_state, to_create, to_started, after_started, calls,
          List.count_cons]
    · intro k h10 h13 hs hf
      have hst := hstart k h10 hs
      have hw : waits_for_process_exit w config = false := by
        by_cases hk : k ≤ 12
        · have hf2 : step_fails w k = true := by
            rcases hf with rfl | hf
            · omega
            · exact hf
          have hns := fails_not_succeeds w config k hf2
          interval_cases k <;> simp [waits_for_process_exit, hns, hf2]
        · have hk13 : k = 13 := by omega
          subst hk13
          simp [waits_for_process_exit, hs 12 (by norm_num) (by norm_num)]
      have hcount : ∀ (r : Res Unit) (e : Ending),
          ((released_end (.layer (run_layer w config).name) r
            (to_started (.layer (run_layer w config).name) (.handle w.computeSystem) ++
              after_started (.handle w.computeSystem) (.handle w.process) k ++
              [.lock, .call .HcsTerminateComputeSystem (.handle w.computeSystem)]) e).2.trace).count
            (.call .HcsTerminateComputeSystem (.handle w.computeSystem)) = 1 ∧
          (calls (released_end (.layer (run_layer w config).name) r
            (to_started (.layer (run_layer w config).name) (.handle w.computeSystem) ++
              after_started (.handle w.computeSystem) (.handle w.process) k ++
              [.lock, .call .HcsTerminateComputeSystem (.handle w.computeSystem)])
              e).2.trace).count .HcsTerminateComputeSystem = 1 := by
        intro r e
        have hk : k = 10 ∨ k = 11 ∨ k = 12 ∨ k = 13 := by omega
        rcases hk with rfl | rfl | rfl | rfl <;> cases e <;>
          simp [released_end, to_create, to_started, after_started, unwind_layers, calls,
            List.count_cons]
      simp only [leaf, hst, hw]
      exact hcount _ _

/-- Counterexample to C8 as stated: when `HcsCreateComputeSystem` answers 0, the call was
not preceded by `lock()` (the event before it is the call of `GetLayerMountPath`, and no
latch operation comes before it), and no `cancel()` follows: the run performs no latch
operation at all. -/
theorem create_compute_system_without_latch :
    create_not_pending.rc .HcsCreateComputeSystem = 0 ∧
    Api.HcsCreateComputeSystem ∈
      calls (spawn_and_wait create_not_pending sample_config St.init).2.trace ∧
    (before_call .HcsCreateComputeSystem
      (spawn_and_wait create_not_pending sample_config St.init).2.trace).getLast? ≠
      some .lock ∧
    latch_ops (before_call .HcsCreateComputeSystem
      (spawn_and_wait create_not_pending sample_config St.init).2.trace) = [] ∧
    phase_ops .HcsCreateComputeSystem
      (spawn_and_wait create_not_pending sample_config St.init).2.trace ≠ [.cancel] ∧
    latch_ops (spawn_and_wait create_not_pending sample_config St.init).2.trace = [] := by
  refine ⟨by decide, by decide, by decide, by decide, by decide, by decide⟩

set_option maxHeartbeats 3200000 in
/-- C8, as amended. For `HcsStartComputeSystem` and `HcsTerminateComputeSystem` and every
return code `r`: `lock()` is the event immediately before the call; if `r` is the pending
sentinel the only latch operation of that phase is `await` of the matching kind
(`system_start_complete`, `system_exit`), otherwise it is `cancel()`. For
`HcsCreateComputeSystem` no latch operation comes before the call; if `r` is not the
sentinel the run performs no latch operation at all; if it is, `lock()` is the event
immediately before the call of `HcsRegisterComputeSystemCallback`, whose phase consists of
`await(system_create_complete)` when the registration answers 0 and of `cancel()`
otherwise. -/
theorem latch_around_pending_calls (w : World) (config : nspawn_config) :
    (Api.HcsStartComputeSystem ∉ calls (spawn_and_wait w config St.init).2.trace ∨
      ((before_call .HcsStartComputeSystem
          (spawn_and_wait w config St.init).2.trace).getLast? = some .lock ∧
        phase_ops .HcsStartComputeSystem (spawn_and_wait w config St.init).2.trace =
          if w.rc .HcsStartComputeSystem = HcsErrors.operation_pending
          then [.await .system_start_complete] else [.cancel])) ∧
    (Api.HcsTerminateComputeSystem ∉ calls (spawn_and_wait w config St.init).2.trace ∨
      ((before_call .HcsTerminateComputeSystem
          (spawn_and_wait w config St.init).2.trace).getLast? = some .lock ∧
        phase_ops .HcsTerminateComputeSystem (spawn_and_wait w config St.init).2.trace =
          if w.rc .HcsTerminateComputeSystem = HcsErrors.operation_pending
          then [.await .system_exit] else [.cancel])) ∧
    (Api.HcsCreateComputeSystem ∉ calls (spawn_and_wait w config St.init).2.trace ∨
      (latch_ops (before_call .HcsCreateComputeSystem
          (spawn_and_wait w config St.init).2.trace) = [] ∧
        if w.rc .HcsCreateComputeSystem = HcsErrors.operation_pending then
          (before_call .HcsRegisterComputeSystemCallback
            (spawn_and_wait w config St.init).2.trace).getLast? = some .lock ∧
          phase_ops .HcsRegisterComputeSystemCallback
            (spawn_and_wait w config St.init).2.trace =
            if w.rc .HcsRegisterComputeSystemCallback = 0
            then [.await .system_create_complete] else [.cancel]
        else latch_ops (spawn_and_wait w config St.init).2.trace = [])) := by
  rw [spawn_and_wait_eq_outcome]
  unfold outcome
  cases hc : collect_acsendant_layers w (w.strip_filename config.parent_layer_directory)
      (w.strip_parent_dir config.parent_layer_directory) with
  | error e => simp [St.init, calls]
  | ok chain =>
    apply path_cases w config
      (fun p =>
        (Api.HcsStartComputeSystem ∉ calls (leaf w config chain p).2.trace ∨
          ((before_call .HcsStartComputeSystem
              (leaf w config chain p).2.trace).getLast? = some .lock ∧
            phase_ops .HcsStartComputeSystem (leaf w config chain p).2.trace =
              if w.rc .HcsStartComputeSystem = HcsErrors.operation_pending
              then [.await .system_start_complete] else [.cancel])) ∧
        (Api.HcsTerminateComputeSystem ∉ calls (leaf w config chain p).2.trace ∨
          ((before_call .HcsTerminateComputeSystem
              (leaf w config chain p).2.trace).getLast? = some .lock ∧
            phase_ops .HcsTerminateComputeSystem (leaf w config chain p).2.trace =
              if w.rc .HcsTerminateComputeSystem = HcsErrors.operation_pending
              then [.await .system_exit] else [.cancel])) ∧
        (Api.HcsCreateComputeSystem ∉ calls (leaf w config chain p).2.trace ∨
          (latch_ops (before_call .HcsCreateComputeSystem
              (leaf w config chain p).2.trace) = [] ∧
            if w.rc .HcsCreateComputeSystem = HcsErrors.operation_pending then
              (before_call .HcsRegisterComputeSystemCallback
                (leaf w config chain p).2.trace).getLast? = some .lock ∧
              phase_ops .HcsRegisterComputeSystemCallback
                (leaf w config chain p).2.trace =
                if w.rc .HcsRegisterComputeSystemCallback = 0
                then [.await .system_create_complete] else [.cancel]
            else latch_ops (leaf w config chain p).2.trace = [])))
    · intro k h2 h9 hs hf
      have s7 : 7 < k → w.rc .HcsCreateComputeSystem = HcsErrors.operation_pending :=
        fun h => by simpa [step_succeeds] using hs 7 (by norm_num) h
      have s8 : 8 < k → w.rc .HcsRegisterComputeSystemCallback = 0 :=
        fun h => by
          have := hs 8 (by norm_num) h
          simp only [step_succeeds, Bool.and_eq_true, decide_eq_true_eq] at this
          exact this.1
      interval_cases k <;> simp [step_fails] at hf <;>
        simp [leaf, failed_state, to_create, unwind_layers, calls, latch_ops, before_call,
          after_call, phase_ops, Event.is_call, s7, s8, Ne.symm hf]
    · intro k h8 h12 hs hk hf
      have s7 : w.rc .HcsCreateComputeSystem = HcsErrors.operation_pending := by
        simpa [step_succeeds] using hs 7 (by norm_num) (by omega)
      have s8 : w.rc .HcsRegisterComputeSystemCallback = 0 := by
        by_cases h : k = 8
        · subst h
          simp only [step_fails, decide_eq_false_iff_not, not_not] at hf
          exact hf.symm
        · have := hs 8 (by norm_num) (by omega)
          simp only [step_succeeds, Bool.and_eq_true, decide_eq_true_eq] at this
          exact this.1
      have s9 : 8 < k → w.rc .HcsStartComputeSystem = HcsErrors.operation_pending := by
        intro h
        by_cases h9 : k = 9
        · subst h9
          simp only [step_fails, decide_eq_false_iff_not, not_not] at hf
          exact hf.symm
        · have := hs 9 (by norm_num) (by omega)
          simp only [step_succeeds, Bool.and_eq_true, decide_eq_true_eq] at this
          exact this.1
      interval_cases k <;>
        simp [leaf, waiting_state, to_create, to_started, after_started, calls, latch_ops,
          before_call, after_call, phase_ops, Event.is_call, s7, s8, s9]
    · intro k h10 h13 hs _
      have s7 : w.rc .HcsCreateComputeSystem = HcsErrors.operation_pending := by
        simpa [step_succeeds] using hs 7 (by norm_num) (by omega)
      have s8 : w.rc .HcsRegisterComputeSystemCallback = 0 := by
        have := hs 8 (by norm_num) (by omega)
        simp only [step_succeeds, Bool.and_eq_true, decide_eq_true_eq] at this
        exact this.1
      have s9 : w.rc .HcsStartComputeSystem = HcsErrors.operation_pending := by
        have := hs 9 (by norm_num) (by omega)
        simp only [step_succeeds, Bool.and_eq_true, decide_eq_true_eq] at this
        exact this.1
      have hk : k = 10 ∨ k = 11 ∨ k = 12 ∨ k = 13 := by omega
      by_cases ct : w.rc .HcsTerminateComputeSystem = HcsErrors.operation_pending
      · by_cases nt : notified w .HcsTerminateComputeSystem .system_exit = true
        · have he : ending w = .exited := by simp [ending, ct, nt]
          rw [he]
          rcases hk with rfl | rfl | rfl | rfl <;>
            simp [leaf, released_end, to_create, to_started, after_started, unwind_layers,
              calls, latch_ops, before_call, after_call, phase_ops, Event.is_call,
              s7, s8, s9, ct]
        · have he : ending w = .stuck := by simp [ending, ct, nt]
          rw [he]
          rcases hk with rfl | rfl | rfl | rfl <;>
            simp [leaf, released_end, to_create, to_started, after_started, unwind_layers,
              calls, latch_ops, before_call, after_call, phase_ops, Event.is_call,
              s7, s8, s9, ct]
      · have he : ending w = .cancelled := by simp [ending, Ne.symm ct]
        rw [he]
        rcases hk with rfl | rfl | rfl | rfl <;>
          simp [leaf, released_end, to_create, to_started, after_started, unwind_layers,
            calls, latch_ops, before_call, after_call, phase_ops, Event.is_call,
            s7, s8, s9, ct]

/-- C10: the outcome of a run does not depend on the status carried by notifications. Two
worlds that answer the same return codes and deliver notifications of the same types in
the same order (their statuses and data may differ) give the same trace, the same final
latch and the same result of `spawn_and_wait`, and the same value, trace and latch of the
entry point; `container_callback` hands only the notification type to the latch. -/
theorem notification_status_is_ignored (w : World) (notes : Api → List Notification)
    (config : nspawn_config) (config_json : Option String) (config_json_len : Int)
    (n : Notification) (status : Int) (data : Option String) (la : callback_latch)
    (hkinds : ∀ a, (notes a).map (fun n => n.notificationType) =
      (w.notifications a).map (fun n => n.notificationType)) :
    spawn_and_wait { w with notifications := notes } config St.init =
      spawn_and_wait w config St.init ∧
    hostcompute_nspawn { w with notifications := notes } config_json config_json_len =
      hostcompute_nspawn w config_json config_json_len ∧
    container_callback w { n with notificationStatus := status, notificationData := data } la =
      container_callback w n la ∧
    container_callback w n la = la.unlock (w.to_notification_type n.notificationType) := by
  refine ⟨spawn_and_wait_kinds w notes hkinds config, ?_, rfl, rfl⟩
  cases config_json with
  | none => simp only [hostcompute_nspawn]
  | some text =>
    simp only [hostcompute_nspawn]
    cases hl : w.load_config text config_json_len with
    | error m => simp only [lift_library, bind, M.bind, raise]
    | ok cfg =>
      simp only [lift_library, bind, M.bind, M.pure]
      rw [spawn_and_wait_kinds w notes hkinds cfg]

/-- Witness of C10: the `process_exit` notification of the world `happy` carries the status
0; with the status 1 and other data the entry point returns the same value after the same
trace. -/
theorem notification_status_is_ignored_witness :
    exit_status_one .HcsRegisterProcessCallback ≠
      happy.notifications .HcsRegisterProcessCallback ∧
    hostcompute_nspawn { happy with notifications := exit_status_one } (some "config") 6 =
      hostcompute_nspawn happy (some "config") 6 ∧
    (hostcompute_nspawn { happy with notifications := exit_status_one }
      (some "config") 6).1 = .ok none :=
  have h := notification_status_is_ignored happy exit_status_one sample_config
    (some "config") 6 ⟨1, 0, none⟩ 1 none .Idle (by intro a; cases a <;> rfl)
  ⟨by decide, h.2.1, by decide⟩

end nspawn
